/-
A verification development for the NexJen-Bio clinical-trial dashboard.

This file shallowly embeds, in Lean, the trial quality scorer
(`scoring_system/proper_csv_scorer.py` together with `get_interpretation`
from `backend/preprocess_scores.py`) and the entity normalizer and
collaboration-network builder (`backend/services/network_service.py`),
and proves theorems about their specified behaviour.

Modelling conventions:
* Python strings are `List Char`; `str.lower`, `str.upper`, `str.title` and
  `str.strip` are embedded character-wise (ASCII case mapping, which agrees
  with Python on every string occurring in the repository's tables).
* Python's float arithmetic on the rubric constants is modelled exactly over
  `ℚ`; `round(x, 2)` is modelled as rounding `100·x` to the nearest integer.
  The scorer only ever rounds sums of two-decimal constants, where this is
  exact and agrees with the floating-point program.
* Python's substring test `p in s` is `containsSub s p`.
* A pandas cell value is a `PyVal`: a string, an integer, NaN, or an absent
  column (the default of `dict.get` models the last case).
* Dates are integer day numbers; `pd.to_datetime(..., errors='coerce')` is
  modelled by an `Option ℤ` field (`none` = NaT / unparseable), and the
  `str(timestamp)`/re-parse round trip, which is the identity on valid
  timestamps, is elided.
* Real-valued exponentials (`decay_rate ** months`) are modelled over `ℝ`
  with `Real.rpow`; everything not involving them is computable.
-/

import Mathlib

set_option maxHeartbeats 2000000
set_option maxRecDepth 8000

abbrev Str := List Char

/-- Python `str.lower()` (ASCII case mapping). -/
def lowerStr (s : Str) : Str := s.map Char.toLower

/-- Python `str.upper()` (ASCII case mapping). -/
def upperStr (s : Str) : Str := s.map Char.toUpper

/-- Python `str.strip()`: drop leading and trailing whitespace. -/
def stripStr (s : Str) : Str :=
  ((s.dropWhile Char.isWhitespace).reverse.dropWhile Char.isWhitespace).reverse

/-- Python's substring test: `containsSub hay pat` is `pat in hay`. -/
def containsSub : Str → Str → Bool
  | [], pat => pat.isEmpty
  | hay@(_ :: t), pat => pat.isPrefixOf hay || containsSub t pat

/-- Helper for `titleStr`: the `Bool` says whether the previous character
was alphabetic. -/
def titleAux : Bool → Str → Str
  | _, [] => []
  | prevAlpha, c :: t =>
    let c' := if c.isAlpha then (if prevAlpha then c.toLower else c.toUpper) else c
    c' :: titleAux c.isAlpha t

/-- Python `str.title()`: uppercase each letter that follows a non-letter,
lowercase every other letter. -/
def titleStr (s : Str) : Str := titleAux false s

/-- Split a string at every occurrence of one of the delimiter characters,
keeping empty pieces — Python `re.split(r'[,;|]', s)` and friends. -/
def splitOnAny (delims : List Char) : Str → Str → List Str
  | [], acc => [acc.reverse]
  | c :: t, acc =>
    if delims.contains c then acc.reverse :: splitOnAny delims t []
    else splitOnAny delims t (c :: acc)

/-- Python `str.split()` with no argument: split on whitespace runs,
dropping empty pieces. -/
def splitWhitespace (s : Str) : List Str :=
  ((splitOnAny [' ', '\t', '\n', '\r'] s []).filter (fun p => ¬ p.isEmpty))

/-- Does the string contain four consecutive decimal digits?  This is
Python's `re.search(r'\d{4}', s)` used by the publication parser. -/
def containsFourDigits : Str → Bool
  | [] => false
  | a :: rest =>
    (match rest with
     | b :: c :: d :: _ => a.isDigit && b.isDigit && c.isDigit && d.isDigit
     | _ => false) || containsFourDigits rest

/-- Digits of a nonnegative integer string, as a number. -/
def digitsToNat : List Char → Option Nat
  | [] => none
  | cs => cs.foldl (fun acc c =>
      match acc with
      | none => none
      | some n => if c.isDigit then some (n * 10 + (c.toNat - '0'.toNat)) else none)
      (some 0)

/-- Python `int(s)` on a string: strip whitespace, allow an optional sign,
then decimal digits; anything else raises (modelled as `none`). -/
def parseIntStr (s : Str) : Option Int :=
  match stripStr s with
  | '-' :: ds => (digitsToNat ds).map (fun n => -(n : Int))
  | '+' :: ds => (digitsToNat ds).map (fun n => (n : Int))
  | ds => (digitsToNat ds).map (fun n => (n : Int))

/-- Python `round(x, 2)` on the scorer's exact two-decimal sums: round
`100·x` to the nearest integer and divide back. -/
def round2 (q : ℚ) : ℚ := ((round (100 * q) : ℤ) : ℚ) / 100

/-- `round(x, 2)` for the real-valued edge weights of the network builder. -/
noncomputable def round2R (x : ℝ) : ℝ := ((round (100 * x) : ℤ) : ℝ) / 100

/-- A pandas cell value as the scorer sees it: a string, an integer, the
float NaN of a missing CSV cell, or an absent column (in which case
`dict.get` supplies its default). -/
inductive PyVal where
  | vStr (s : Str)
  | vInt (n : Int)
  | vNan
  | vAbsent
  deriving DecidableEq

/-- Python `trial_data.get(key, default)`: the stored value unless the
column is absent. -/
def pyGet (v d : PyVal) : PyVal :=
  match v with
  | .vAbsent => d
  | _ => v

/-- Python `str(value)`. -/
def pyStr : PyVal → Str
  | .vStr s => s
  | .vInt n => (toString n).data
  | .vNan => "nan".data
  | .vAbsent => "None".data

/-- Python `pd.isna(value)`. -/
def pyIsNa : PyVal → Bool
  | .vNan => true
  | _ => false

/-- Python truth test `not value` (for the values a cell can hold; NaN is
truthy in Python). -/
def pyFalsy : PyVal → Bool
  | .vStr s => s.isEmpty
  | .vInt n => n == 0
  | .vNan => false
  | .vAbsent => true

/-- Python `value == 0` for a cell value (a string never equals an int). -/
def pyEqZero : PyVal → Bool
  | .vInt n => n == 0
  | _ => false

/-- Python `int(value)`: identity on ints, parse for strings, raises
(`none`) on NaN. -/
def pyToInt : PyVal → Option Int
  | .vInt n => some n
  | .vStr s => parseIntStr s
  | _ => none

/-- One row of the scorer's CSV, i.e. the dictionary
`trial.iloc[0].to_dict()`: the columns written by
`create_interventional_csv.py` plus every key the scorer probes.  Keys
never produced by the data pipeline surface as `vAbsent`. -/
structure TrialData where
  nctId : PyVal
  briefTitle : PyVal
  officialTitle : PyVal
  overallStatus : PyVal
  phases : PyVal
  studyType : PyVal
  conditions : PyVal
  interventions : PyVal
  enrollmentCount : PyVal
  startDate : PyVal
  completionDate : PyVal
  locations : PyVal
  leadSponsor : PyVal
  primaryOutcomes : PyVal
  eligibilityCriteria : PyVal
  allocation : PyVal
  masking : PyVal
  keywords : PyVal
  briefSummary : PyVal
  ipdSharing : PyVal
  ipdDescription : PyVal
  deriving DecidableEq

/-- `repr` of one cell inside `str(dict)`: strings are quoted, other
values use `str`. -/
def reprVal : PyVal → Str
  | .vStr s => '\'' :: (s ++ ['\''])
  | v => pyStr v

/-- One `'key': value` item of the dictionary rendering. -/
def renderItem (key : Str) (v : PyVal) : Str :=
  '\'' :: (key ++ ('\'' :: (':' :: (' ' :: reprVal v))))

/-- Python `str(trial_data)`: the dictionary rendering
`\x7b'nctId': ..., 'briefTitle': ..., ...\x7d` that
`calculate_termination_penalty` searches for keywords. -/
def renderTrialData (td : TrialData) : Str :=
  let items := [renderItem "nctId".data td.nctId,
    renderItem "briefTitle".data td.briefTitle,
    renderItem "officialTitle".data td.officialTitle,
    renderItem "overallStatus".data td.overallStatus,
    renderItem "phases".data td.phases,
    renderItem "studyType".data td.studyType,
    renderItem "conditions".data td.conditions,
    renderItem "interventions".data td.interventions,
    renderItem "enrollmentCount".data td.enrollmentCount,
    renderItem "startDate".data td.startDate,
    renderItem "completionDate".data td.completionDate,
    renderItem "locations".data td.locations,
    renderItem "leadSponsor".data td.leadSponsor,
    renderItem "primaryOutcomes".data td.primaryOutcomes,
    renderItem "eligibilityCriteria".data td.eligibilityCriteria,
    renderItem "allocation".data td.allocation,
    renderItem "masking".data td.masking,
    renderItem "keywords".data td.keywords,
    renderItem "briefSummary".data td.briefSummary,
    renderItem "ipdSharing".data td.ipdSharing,
    renderItem "ipdDescription".data td.ipdDescription]
  '\x7b' :: ((items.intersperse ", ".data).flatten ++ ['\x7d'])

/-- `ProperCSVScorer.calculate_outcome_evidence` (0–1.2 pts). -/
def calculate_outcome_evidence (td : TrialData) : ℚ :=
  let status := lowerStr (pyStr (pyGet td.overallStatus (.vStr [])))
  let outcomes := lowerStr (pyStr (pyGet td.primaryOutcomes (.vStr [])))
  if containsSub status "completed".data && containsSub outcomes "positive".data then 1.2
  else if containsSub status "completed".data then 0.8
  else if ["recruiting".data, "active".data, "ongoing".data].any
      (fun w => containsSub status w) then 0.6
  else if containsSub status "terminated".data && !containsSub status "safety".data
      && !containsSub status "futility".data then 0.3
  else if ["withdrawn".data, "suspended".data, "safety".data, "futility".data].any
      (fun w => containsSub status w) then 0.0
  else 0.3

/-- The string `calculate_phase_prior` matches on:
`str(trial_data.get('phases', '')).upper()`. -/
def phaseString (td : TrialData) : Str :=
  upperStr (pyStr (pyGet td.phases (.vStr [])))

/-- `ProperCSVScorer.calculate_phase_prior` (0–1.2 pts). -/
def calculate_phase_prior (td : TrialData) : ℚ :=
  let phase := phaseString td
  if containsSub phase "PHASE4".data then 1.2
  else if containsSub phase "PHASE3".data then 0.9
  else if containsSub phase "PHASE2".data then 0.6
  else if containsSub phase "PHASE1/2".data || containsSub phase "PHASE12".data then 0.3
  else if containsSub phase "PHASE1".data then 0.2
  else 0.1

/-- The scorer's local top-tier sponsor list. -/
def scorerTopTier : List Str :=
  ["pfizer".data, "roche".data, "novartis".data, "merck".data,
   "johnson & johnson".data, "astrazeneca".data, "sanofi".data, "eli lilly".data,
   "bristol-myers squibb".data, "abbvie".data, "gilead".data, "amgen".data,
   "biogen".data, "nih".data, "mayo clinic".data, "stanford".data,
   "harvard".data, "johns hopkins".data]

/-- The scorer's mid-tier sponsor keywords. -/
def scorerMidTier : List Str :=
  ["university of".data, "medical center".data, "hospital".data,
   "medical school".data, "research institute".data, "foundation".data,
   "association".data]

/-- `ProperCSVScorer.calculate_sponsor_track_record` (0–0.8 pts). -/
def calculate_sponsor_track_record (td : TrialData) : ℚ :=
  let sponsor := lowerStr (pyStr (pyGet td.leadSponsor (.vStr [])))
  if scorerTopTier.any (fun w => containsSub sponsor w) then 0.8
  else if scorerMidTier.any (fun w => containsSub sponsor w) then 0.5
  else 0.2

/-- `ProperCSVScorer.calculate_study_design_integrity` (0–0.8 pts). -/
def calculate_study_design_integrity (td : TrialData) : ℚ :=
  let allocation := lowerStr (pyStr (pyGet td.allocation (.vStr [])))
  let masking := lowerStr (pyStr (pyGet td.masking (.vStr [])))
  let outcomes := lowerStr (pyStr (pyGet td.primaryOutcomes (.vStr [])))
  let allocScore : ℚ :=
    if containsSub allocation "randomized".data && containsSub allocation "parallel".data
    then 0.3
    else if containsSub allocation "randomized".data then 0.20
    else 0.1
  let maskScore : ℚ :=
    if containsSub masking "double".data || containsSub masking "triple".data then 0.2
    else if containsSub masking "single".data then 0.10
    else 0.05
  let endpointScore : ℚ :=
    if ["survival".data, "death".data, "hospitalization".data, "mortality".data].any
        (fun w => containsSub outcomes w) then 0.3
    else 0.1
  round2 (allocScore + maskScore + endpointScore)

/-- `ProperCSVScorer.calculate_enrollment_fulfillment` (0–0.6 pts); the
`except` path of the source (raised by `int(...)`) is the `none` case of
`pyToInt`. -/
def calculate_enrollment_fulfillment (td : TrialData) : ℚ :=
  let enrollment := pyGet td.enrollmentCount (.vInt 0)
  if pyIsNa enrollment || pyEqZero enrollment then 0.1
  else
    match pyToInt enrollment with
    | none => 0.1
    | some n =>
      let phase := upperStr (pyStr (pyGet td.phases (.vStr [])))
      let minRequired : ℚ :=
        if containsSub phase "PHASE1".data then 20
        else if containsSub phase "PHASE2".data then 100
        else if containsSub phase "PHASE3".data then 300
        else if containsSub phase "PHASE4".data then 500
        else 100
      let ratio : ℚ := (n : ℚ) / minRequired
      if ratio ≥ 1.00 then 0.6
      else if ratio ≥ 0.75 then 0.4
      else if ratio ≥ 0.50 then 0.2
      else 0.1

/-- The fixed age-range substrings of `calculate_external_validity`. -/
def ageKeywords : List Str :=
  ["18-65".data, "18-75".data, "18-80".data, "21-65".data, "21-75".data, "21-80".data]

/-- The strict-biomarker keywords of `calculate_external_validity`. -/
def strictFilters : List Str :=
  ["hla".data, "genetic".data, "biomarker".data, "mutation".data]

/-- The age-span part (+0.1) of `calculate_external_validity`. -/
def externalValidityAge (eligibility : Str) : ℚ :=
  if ageKeywords.any (fun w => containsSub eligibility w) then 0.1 else 0

/-- The both-sexes condition of `calculate_external_validity`; Python's
`'both' in e or 'male' in e and 'female' in e` parses as
`both ∨ (male ∧ female)`. -/
def bothSexesCond (eligibility : Str) : Bool :=
  containsSub eligibility "both".data ||
    (containsSub eligibility "male".data && containsSub eligibility "female".data)

/-- The no-strict-biomarker part (+0.05) of `calculate_external_validity`. -/
def externalValidityBiomarker (eligibility : Str) : ℚ :=
  if !strictFilters.any (fun w => containsSub eligibility w) then 0.05 else 0

/-- `ProperCSVScorer.calculate_external_validity` (0–0.4 pts). -/
def calculate_external_validity (td : TrialData) : ℚ :=
  let eligibility := lowerStr (pyStr (pyGet td.eligibilityCriteria (.vStr [])))
  round2 (externalValidityAge eligibility +
    (if bothSexesCond eligibility then 0.15 else 0) +
    externalValidityBiomarker eligibility)

/-- `ProperCSVScorer.calculate_regulatory_acceleration_bonus` (0–0.3 pts). -/
def calculate_regulatory_acceleration_bonus (td : TrialData) : ℚ :=
  let interventions := lowerStr (pyStr (pyGet td.interventions (.vStr [])))
  let keywords := lowerStr (pyStr (pyGet td.keywords (.vStr [])))
  let briefSummary := lowerStr (pyStr (pyGet td.briefSummary (.vStr [])))
  let allText := interventions ++ (' ' :: (keywords ++ (' ' :: briefSummary)))
  let s1 : ℚ :=
    if ["breakthrough".data, "fast-track".data, "rmat".data,
        "regenerative medicine".data].any (fun w => containsSub allText w)
    then 0.2 else 0
  let s2 : ℚ :=
    if ["orphan".data, "rare disease".data, "orphan drug".data,
        "rare neurological".data, "very rare".data].any (fun w => containsSub allText w)
    then 0.1 else 0
  min (s1 + s2) 0.3

/-- `ProperCSVScorer.calculate_data_sharing_bonus` (0–0.2 pts). -/
def calculate_data_sharing_bonus (td : TrialData) : ℚ :=
  let ipdSharing := lowerStr (pyStr (pyGet td.ipdSharing (.vStr [])))
  let ipdDescription := lowerStr (pyStr (pyGet td.ipdDescription (.vStr [])))
  if containsSub ipdSharing "yes".data || containsSub ipdSharing "available".data
      || containsSub ipdDescription "plan".data
  then 0.2 else 0.0

/-- The safety keywords of `calculate_termination_penalty`. -/
def safetyKeywords : List Str :=
  ["safety".data, "adverse events".data, "toxicity".data, "harm".data]

/-- The futility keywords of `calculate_termination_penalty`. -/
def futilityKeywords : List Str :=
  ["futility".data, "lack of efficacy".data, "ineffective".data]

/-- `ProperCSVScorer.calculate_termination_penalty` (−1.0 to 0.0); calling
`.upper()` on a non-string cell raises and is caught by the source's
`except` handler, returning 0.0. -/
def calculate_termination_penalty (td : TrialData) : ℚ :=
  match pyGet td.overallStatus (.vStr []) with
  | .vStr s =>
    let status := upperStr s
    if status = "TERMINATED".data then
      let trialText := lowerStr (renderTrialData td)
      if (safetyKeywords ++ futilityKeywords).any (fun w => containsSub trialText w)
      then -1.0 else -0.8
    else if status = "WITHDRAWN".data then -0.8
    else if status = "SUSPENDED".data then -0.5
    else 0.0
  | _ => 0.0
/-- `ProperCSVScorer.high_impact_journals` with impact factors. -/
def high_impact_journals : List (Str × ℚ) :=
  [("nature".data, (49.962 : ℚ)),
   ("science".data, (56.9 : ℚ)),
   ("cell".data, (66.85 : ℚ)),
   ("nature medicine".data, (87.241 : ℚ)),
   ("nature genetics".data, (41.307 : ℚ)),
   ("nature biotechnology".data, (68.164 : ℚ)),
   ("new england journal of medicine".data, (176.082 : ℚ)),
   ("lancet".data, (168.9 : ℚ)),
   ("lancet neurology".data, (48.0 : ℚ)),
   ("jama".data, (157.3 : ℚ)),
   ("journal of the american medical association".data, (157.3 : ℚ)),
   ("nature immunology".data, (31.25 : ℚ)),
   ("immunity".data, (43.474 : ℚ)),
   ("neuron".data, (16.2 : ℚ)),
   ("cancer cell".data, (50.3 : ℚ)),
   ("blood".data, (20.3 : ℚ)),
   ("circulation".data, (39.918 : ℚ)),
   ("gastroenterology".data, (33.883 : ℚ)),
   ("diabetes".data, (9.337 : ℚ)),
   ("brain".data, (15.255 : ℚ)),
   ("movement disorders".data, (9.698 : ℚ)),
   ("parkinsonism and related disorders".data, (4.432 : ℚ)),
   ("journal of neurology".data, (6.382 : ℚ)),
   ("neurology".data, (11.8 : ℚ)),
   ("annals of neurology".data, (11.2 : ℚ)),
   ("archives of neurology".data, (11.2 : ℚ)),
   ("neurobiology of disease".data, (5.2 : ℚ)),
   ("experimental neurology".data, (5.0 : ℚ)),
   ("journal of neuroscience".data, (6.709 : ℚ)),
   ("neuroscience".data, (3.708 : ℚ)),
   ("neurotherapeutics".data, (5.7 : ℚ)),
   ("parkinson's disease".data, (3.0 : ℚ)),
   ("npj parkinson's disease".data, (9.0 : ℚ))]

/-- `ProperCSVScorer.non_high_impact_journals` with impact factors. -/
def non_high_impact_journals : List (Str × ℚ) :=
  [("stem cells and development".data, (3.0 : ℚ)),
   ("stem cells".data, (6.0 : ℚ)),
   ("development".data, (6.0 : ℚ)),
   ("plos one".data, (3.752 : ℚ)),
   ("bmc".data, (3.0 : ℚ)),
   ("scientific reports".data, (4.996 : ℚ)),
   ("frontiers".data, (5.0 : ℚ))]

/-- The substring/equality condition `validate_journal_impact` tests a
journal name against each table key. -/
def journalKeyMatches (jl k : Str) : Bool :=
  containsSub jl k || containsSub k jl || jl == k

/-- `ProperCSVScorer.validate_journal_impact`: a hit in the high-impact
table is high-impact; a hit in the non-high-impact table is high-impact
exactly when its recorded impact factor is ≥ 10 (the source returns from
inside the loop at the first hit); unknown journals are not. -/
def validate_journal_impact (journalName : Str) : Bool :=
  if journalName.isEmpty then false
  else
    let jl := stripStr (lowerStr journalName)
    match high_impact_journals.find? (fun kv => journalKeyMatches jl kv.1) with
    | some _ => true
    | none =>
      match non_high_impact_journals.find? (fun kv => journalKeyMatches jl kv.1) with
      | some kv => kv.2 ≥ 10.0
      | none => false

/-- `ProperCSVScorer.parse_publication_string`, modelled on the short-name
path: format-only strings yield nothing; a string of at most five words
with no four-digit year is returned stripped.  The source's further
citation-regex fallback (journal-name patterns inside long citations) is
modelled conservatively as finding no journal; no claim in this
development depends on it, and the strings the bonus calculator re-parses
are the short names this path covers. -/
def parse_publication_string (pubString : Str) : Option Str :=
  if ["epub".data, "pdf".data, "html".data].contains (stripStr (lowerStr pubString))
  then none
  else if (splitWhitespace pubString).length ≤ 5 && !containsFourDigits pubString
  then some (stripStr pubString)
  else none

/-- One entry of `failed_apis.json`, as built by
`ProperCSVScorer.log_failed_api`: trial identifier, API type, error text
and timestamp (the free-form `details` dictionary is not modelled). -/
structure LogEntry where
  nct_id : Str
  api_type : Str
  error : Str
  timestamp : Str
  deriving DecidableEq

/-- The outcome of one best-effort external publication lookup: the list
of publication strings the fetch returns, or the text of the exception its
`except` handler caught. -/
abbrev FetchOutcome := Except Str (List Str)

/-- `ProperCSVScorer.fetch_clinicaltrials_publications`: the network
interaction is an oracle `FetchOutcome`; on failure the function logs via
`log_failed_api` and returns the publications collected so far (none). -/
def fetch_clinicaltrials_publications (nctId : Str) (outcome : FetchOutcome)
    (now : Str) : List Str × List LogEntry :=
  match outcome with
  | .ok pubs => (pubs, [])
  | .error e => ([], [⟨nctId, "clinicaltrials_publications".data, e, now⟩])

/-- `ProperCSVScorer.fetch_pubmed_publications`, modelled like the
ClinicalTrials.gov fetch. -/
def fetch_pubmed_publications (nctId : Str) (outcome : FetchOutcome)
    (now : Str) : List Str × List LogEntry :=
  match outcome with
  | .ok pubs => (pubs, [])
  | .error e => ([], [⟨nctId, "pubmed_publications".data, e, now⟩])

/-- `ProperCSVScorer.calculate_high_impact_publication_bonus` (0–0.5 pts)
with its two lookup outcomes passed explicitly; returns the bonus and the
log entries of failed lookups. -/
def calculate_high_impact_publication_bonus (nctId : Str)
    (ct pm : FetchOutcome) (now : Str) : ℚ × List LogEntry :=
  let ctRes := fetch_clinicaltrials_publications nctId ct now
  let pmRes := fetch_pubmed_publications nctId pm now
  let allPublications := ctRes.1 ++ pmRes.1
  let highImpactCount := (allPublications.filter (fun pub =>
    match parse_publication_string pub with
    | some j => validate_journal_impact j
    | none => false)).length
  let bonus : ℚ :=
    if highImpactCount ≥ 2 then 0.5
    else if highImpactCount == 1 then 0.3
    else 0.0
  (bonus, ctRes.2 ++ pmRes.2)

/-- The `TrialScore` dataclass. -/
structure TrialScore where
  nct_id : Str
  outcome_evidence : ℚ
  phase_prior : ℚ
  sponsor_track_record : ℚ
  study_design_integrity : ℚ
  enrollment_fulfillment : ℚ
  external_validity : ℚ
  regulatory_acceleration_bonus : ℚ
  high_impact_publication_bonus : ℚ
  data_sharing_bonus : ℚ
  termination_penalty : ℚ
  deriving DecidableEq

/-- `TrialScore.base_score`: the six components summed, capped at 5.0, and
rounded to two decimals. -/
def TrialScore.base_score (s : TrialScore) : ℚ :=
  round2 (min 5.0 (s.outcome_evidence + s.phase_prior + s.sponsor_track_record +
    s.study_design_integrity + s.enrollment_fulfillment + s.external_validity))

/-- `TrialScore.total_score`: base score plus bonuses capped at 1.0 plus
the termination penalty, clamped to [0, 5] and rounded. -/
def TrialScore.total_score (s : TrialScore) : ℚ :=
  let bonuses := min 1.0 (s.regulatory_acceleration_bonus +
    s.high_impact_publication_bonus + s.data_sharing_bonus)
  round2 (max 0.0 (min 5.0 (s.base_score + bonuses + s.termination_penalty)))

/-- `TrialScore.interpretation`. -/
def TrialScore.interpretation (s : TrialScore) : Str :=
  if s.total_score ≥ 4.0 then "HIGHLY RELIABLE".data
  else if s.total_score ≥ 3.0 then "RELIABLE".data
  else if s.total_score ≥ 2.0 then "MODERATE".data
  else if s.total_score ≥ 1.0 then "RISKY".data
  else "HIGHLY RISKY".data

/-- `get_interpretation` from `backend/preprocess_scores.py`. -/
def get_interpretation (score : ℚ) : Str :=
  if score ≥ 4.0 then "EXCELLENT".data
  else if score ≥ 3.0 then "GOOD".data
  else if score ≥ 2.4 then "FAIR".data
  else if score ≥ 1.2 then "POOR".data
  else "VERY POOR".data

/-- `ProperCSVScorer.get_trial_data`: the first CSV row whose `nctId`
column equals the requested identifier. -/
def get_trial_data (db : List TrialData) (nctId : Str) : Option TrialData :=
  db.find? (fun td => td.nctId == .vStr nctId)

/-- The `TrialScore` that `calculate_trial_score` assembles for a found
trial record. -/
def mkTrialScore (td : TrialData) (nctId : Str) (ct pm : FetchOutcome)
    (now : Str) : TrialScore :=
  { nct_id := nctId
    outcome_evidence := calculate_outcome_evidence td
    phase_prior := calculate_phase_prior td
    sponsor_track_record := calculate_sponsor_track_record td
    study_design_integrity := calculate_study_design_integrity td
    enrollment_fulfillment := calculate_enrollment_fulfillment td
    external_validity := calculate_external_validity td
    regulatory_acceleration_bonus := calculate_regulatory_acceleration_bonus td
    high_impact_publication_bonus := (calculate_high_impact_publication_bonus nctId ct pm now).1
    data_sharing_bonus := calculate_data_sharing_bonus td
    termination_penalty := calculate_termination_penalty td }

/-- `ProperCSVScorer.calculate_trial_score`: `none` when the identifier is
absent from the CSV, otherwise the assembled `TrialScore`; also returns
the failed-lookup log entries appended during the computation. -/
def calculate_trial_score (db : List TrialData) (nctId : Str)
    (ct pm : FetchOutcome) (now : Str) : Option TrialScore × List LogEntry :=
  match get_trial_data db nctId with
  | none => (none, [])
  | some td =>
    (some (mkTrialScore td nctId ct pm now),
     (calculate_high_impact_publication_bonus nctId ct pm now).2)
/-- `NetworkService._load_canonical_aliases`: the curated `lowercased alias → Canonical Name` table, in the source's insertion order (which the fuzzy-match loop iterates). -/
def canonical_aliases : List (Str × Str) :=
  [("ucsf".data, "University of California, San Francisco".data),
   ("univ. calif. san fran".data, "University of California, San Francisco".data),
   ("uc san francisco".data, "University of California, San Francisco".data),
   ("harvard".data, "Harvard University".data),
   ("stanford".data, "Stanford University".data),
   ("yale".data, "Yale University".data),
   ("upenn".data, "University of Pennsylvania".data),
   ("univ. of pennsylvania".data, "University of Pennsylvania".data),
   ("columbia".data, "Columbia University".data),
   ("uoft".data, "University of Toronto".data),
   ("univ. of toronto".data, "University of Toronto".data),
   ("univ. of melbourne".data, "University of Melbourne".data),
   ("univ. of sydney".data, "University of Sydney".data),
   ("ucl".data, "University College London".data),
   ("univ. college london".data, "University College London".data),
   ("imperial".data, "Imperial College London".data),
   ("imperial college".data, "Imperial College London".data),
   ("oxford university".data, "University of Oxford".data),
   ("cambridge university".data, "University of Cambridge".data),
   ("sjtu".data, "Shanghai Jiao Tong University".data),
   ("pku".data, "Peking University".data),
   ("beijing university".data, "Peking University".data),
   ("thu".data, "Tsinghua University".data),
   ("tsinghua".data, "Tsinghua University".data),
   ("sysu".data, "Sun Yat-sen University".data),
   ("sun yat sen univ".data, "Sun Yat-sen University".data),
   ("snu".data, "Seoul National University".data),
   ("utokyo".data, "University of Tokyo".data),
   ("kyoto univ".data, "Kyoto University".data),
   ("nus".data, "National University of Singapore".data),
   ("ubc".data, "University of British Columbia".data),
   ("mgh".data, "Massachusetts General Hospital".data),
   ("mass general hospital".data, "Massachusetts General Hospital".data),
   ("mayo".data, "Mayo Clinic".data),
   ("mayo foundation".data, "Mayo Clinic".data),
   ("cleveland clinic foundation".data, "Cleveland Clinic".data),
   ("fred hutch".data, "Fred Hutchinson Cancer Research Center".data),
   ("dana farber".data, "Dana-Farber Cancer Institute".data),
   ("mskcc".data, "Memorial Sloan Kettering Cancer Center".data),
   ("sloan kettering".data, "Memorial Sloan Kettering Cancer Center".data),
   ("charite".data, "Charité - Universitätsmedizin Berlin".data),
   ("charite berlin".data, "Charité - Universitätsmedizin Berlin".data),
   ("nci".data, "National Cancer Institute (NCI)".data),
   ("nih nci".data, "National Cancer Institute (NCI)".data),
   ("natl cancer institute".data, "National Cancer Institute (NCI)".data),
   ("nih".data, "National Institutes of Health (NIH)".data),
   ("u.s. nih".data, "National Institutes of Health (NIH)".data),
   ("inserm".data, "Institut National de la Santé et de la Recherche Médicale".data),
   ("karolinska institute".data, "Karolinska Institutet".data),
   ("roche".data, "F. Hoffmann-La Roche AG".data),
   ("hoffmann-la roche".data, "F. Hoffmann-La Roche AG".data),
   ("roche ag".data, "F. Hoffmann-La Roche AG".data),
   ("novartis".data, "Novartis AG".data),
   ("novartis pharmaceuticals".data, "Novartis AG".data),
   ("pfizer".data, "Pfizer Inc.".data),
   ("pfizer incorporated".data, "Pfizer Inc.".data),
   ("gsk".data, "GlaxoSmithKline plc".data),
   ("glaxo".data, "GlaxoSmithKline plc".data),
   ("glaxosmithkline".data, "GlaxoSmithKline plc".data),
   ("glaxo smith kline".data, "GlaxoSmithKline plc".data),
   ("astrazeneca".data, "AstraZeneca plc".data),
   ("astra zeneca".data, "AstraZeneca plc".data),
   ("sanofi-aventis".data, "Sanofi".data),
   ("aventis".data, "Sanofi".data),
   ("merck".data, "Merck & Co., Inc.".data),
   ("msd".data, "Merck & Co., Inc.".data),
   ("merck sharp & dohme".data, "Merck & Co., Inc.".data),
   ("j&j".data, "Johnson & Johnson".data),
   ("janssen".data, "Johnson & Johnson".data),
   ("janssen pharmaceuticals".data, "Johnson & Johnson".data),
   ("lilly".data, "Eli Lilly and Company".data),
   ("eli lilly".data, "Eli Lilly and Company".data),
   ("national institutes of health (nih)".data, "National Institutes of Health (NIH)".data),
   ("national institute of neurological disorders and stroke (ninds)".data, "National Institute of Neurological Disorders and Stroke (NINDS)".data),
   ("national institute on aging (nia)".data, "National Institute on Aging (NIA)".data),
   ("national institute of diabetes and digestive and kidney diseases (niddk)".data, "National Institute of Diabetes and Digestive and Kidney Diseases (NIDDK)".data),
   ("national institute of allergy and infectious diseases (niaid)".data, "National Institute of Allergy and Infectious Diseases (NIAID)".data),
   ("national center for advancing translational sciences (ncats)".data, "National Center for Advancing Translational Sciences (NCATS)".data),
   ("national institute for biomedical imaging and bioengineering (nibib)".data, "National Institute for Biomedical Imaging and Bioengineering (NIBIB)".data),
   ("eunice kennedy shriver national institute of child health and human development (nichd)".data, "Eunice Kennedy Shriver National Institute of Child Health and Human Development (NICHD)".data),
   ("national institute on deafness and other communication disorders (nidcd)".data, "National Institute on Deafness and Other Communication Disorders (NIDCD)".data),
   ("michael j. fox foundation for parkinson's research".data, "Michael J. Fox Foundation for Parkinson's Research".data),
   ("parkinson's uk".data, "Parkinson's UK".data),
   ("parkinson society canada".data, "Parkinson Society Canada".data),
   ("the parkinson study group".data, "The Parkinson Study Group".data),
   ("university of california, los angeles".data, "University of California, Los Angeles".data),
   ("university of california, san francisco".data, "University of California, San Francisco".data),
   ("university of california, san diego".data, "University of California, San Diego".data),
   ("duke university".data, "Duke University".data),
   ("stanford university".data, "Stanford University".data),
   ("harvard medical school (hms and hsdm)".data, "Harvard Medical School".data),
   ("yale university".data, "Yale University".data),
   ("northwestern university".data, "Northwestern University".data),
   ("university of chicago".data, "University of Chicago".data),
   ("university of michigan".data, "University of Michigan".data),
   ("university of minnesota".data, "University of Minnesota".data),
   ("emory university".data, "Emory University".data),
   ("university of pittsburgh".data, "University of Pittsburgh".data),
   ("washington university school of medicine".data, "Washington University School of Medicine".data),
   ("rush university medical center".data, "Rush University Medical Center".data),
   ("rush university".data, "Rush University".data),
   ("case western reserve university".data, "Case Western Reserve University".data),
   ("purdue university".data, "Purdue University".data),
   ("university of cincinnati".data, "University of Cincinnati".data),
   ("university of utah".data, "University of Utah".data),
   ("university of florida".data, "University of Florida".data),
   ("university of alabama at birmingham".data, "University of Alabama at Birmingham".data),
   ("university of kentucky".data, "University of Kentucky".data),
   ("university of tennessee, knoxville".data, "The University of Tennessee, Knoxville".data),
   ("university of idaho".data, "University of Idaho".data),
   ("university of rochester".data, "University of Rochester".data),
   ("university of castilla-la mancha".data, "University of Castilla-La Mancha".data),
   ("university of milano bicocca".data, "University of Milano Bicocca".data),
   ("university of bologna".data, "University of Bologna".data),
   ("universidad autonoma de san luis potosí".data, "Universidad Autonoma de San Luis Potosí".data),
   ("mcgill university".data, "McGill University".data),
   ("ottawa hospital research institute".data, "Ottawa Hospital Research Institute".data),
   ("university of south florida".data, "University of South Florida".data),
   ("university of illinois at chicago".data, "University of Illinois at Chicago".data),
   ("university at buffalo".data, "University at Buffalo".data),
   ("oregon health and science university".data, "Oregon Health and Science University".data),
   ("cedars-sinai medical center".data, "Cedars-Sinai Medical Center".data),
   ("arizona state university".data, "Arizona State University".data),
   ("augusta university".data, "Augusta University".data),
   ("albany medical college".data, "Albany Medical College".data),
   ("beth israel deaconess medical center".data, "Beth Israel Deaconess Medical Center".data),
   ("johns hopkins university".data, "Johns Hopkins University".data),
   ("wake forest university".data, "Wake Forest University".data),
   ("centre for addiction and mental health".data, "Centre for Addiction and Mental Health".data),
   ("banner health".data, "Banner Health".data),
   ("massachusetts general hospital".data, "Massachusetts General Hospital".data),
   ("mayo clinic".data, "Mayo Clinic".data),
   ("sanofi".data, "Sanofi".data),
   ("medtronic".data, "Medtronic".data),
   ("boston scientific corporation".data, "Boston Scientific Corporation".data),
   ("highland instruments, inc.".data, "Highland Instruments, Inc.".data),
   ("oryon cell therapies".data, "Oryon Cell Therapies".data),
   ("nebraska neuroscience alliance".data, "Nebraska Neuroscience Alliance".data),
   ("sage bionetworks".data, "Sage Bionetworks".data),
   ("tfs trial form support".data, "TFS Trial Form Support".data),
   ("shanghai icell biotechnology co., ltd, shanghai, china".data, "Shanghai iCELL Biotechnology Co., Ltd".data),
   ("gateway institute for brain research".data, "Gateway Institute for Brain Research".data),
   ("nova southeastern university".data, "Nova Southeastern University".data),
   ("colorado state university".data, "Colorado State University".data),
   ("region stockholm".data, "Region Stockholm".data),
   ("teachers college, columbia university".data, "Teachers College, Columbia University".data),
   ("drug safety and effectiveness network, canada".data, "Drug Safety and Effectiveness Network, Canada".data),
   ("canadian institutes of health research (cihr)".data, "Canadian Institutes of Health Research (CIHR)".data),
   ("marie curie hospice, belfast".data, "Marie Curie Hospice, Belfast".data),
   ("nks olaviken alderspsykiatriske sykehus".data, "NKS Olaviken Alderspsykiatriske sykehus".data),
   ("university hospital, caen".data, "University Hospital, Caen".data),
   ("university hospital, grenoble".data, "University Hospital, Grenoble".data),
   ("taipei medical university shuang ho hospital".data, "Taipei Medical University Shuang Ho Hospital".data),
   ("st. joseph's hospital and medical center, phoenix".data, "St. Joseph's Hospital and Medical Center, Phoenix".data),
   ("spectrum dynamics".data, "Spectrum Dynamics".data),
   ("new york institute of technology".data, "New York Institute of Technology".data),
   ("university of delaware".data, "University of Delaware".data),
   ("cyto therapeutics pty limited".data, "Cyto Therapeutics Pty Limited".data),
   ("university of bergen".data, "University of Bergen".data),
   ("neuralight".data, "NeuraLight".data),
   ("zeng changhao".data, "Zeng Changhao".data),
   ("abbvie".data, "AbbVie Inc.".data),
   ("abbott laboratories".data, "AbbVie Inc.".data),
   ("bayer".data, "Bayer AG".data),
   ("bayer healthcare".data, "Bayer AG".data),
   ("amgen".data, "Amgen Inc.".data),
   ("bms".data, "Bristol Myers Squibb".data),
   ("bristol-myers squibb".data, "Bristol Myers Squibb".data),
   ("bristol myers".data, "Bristol Myers Squibb".data),
   ("genentech".data, "Genentech, Inc.".data),
   ("genentech usa".data, "Genentech, Inc.".data)]

/-- The match window `max(len(s1), len(s2)) // 2 - 1`, clamped at 0 (the
clamp is `Nat` truncated subtraction). -/
def jwMatchDistance (s1 s2 : Str) : Nat := max s1.length s2.length / 2 - 1

/-- The inner loop of the matching phase: the first index `j` of the
window that is not yet used and holds the wanted character. -/
def scanMatch (s2 : Str) (used : List Nat) (c : Char) : List Nat → Option Nat
  | [] => none
  | j :: rest =>
    if !used.contains j && s2.get? j == some c then some j
    else scanMatch s2 used c rest

/-- One iteration of the matching phase, for the indexed character `ic` of
`s1`: scan the window for the first unused equal character of `s2` and
append the pair on a hit. -/
def jwStep (s2 : Str) (md : Nat) (pairs : List (Char × Nat)) (ic : Nat × Char) :
    List (Char × Nat) :=
  let start := ic.1 - md
  let stop := min s2.length (ic.1 + md + 1)
  match scanMatch s2 (pairs.map Prod.snd) ic.2 (List.range' start (stop - start)) with
  | some j => pairs ++ [(ic.2, j)]
  | none => pairs

/-- The matching phase of `NetworkService._jaro_winkler_similarity`: scan
`s1` left to right, greedily pairing each character with the first unused
equal character of `s2` inside the match window; the result is the list of
`(s1 character, matched s2 index)` pairs, in `s1` order. -/
def jwMatchPairs (s1 s2 : Str) : List (Char × Nat) :=
  s1.enum.foldl (jwStep s2 (jwMatchDistance s1 s2)) []

/-- The common-prefix count of the Winkler boost, capped (at 4 in the
source's call). -/
def commonPrefixCapped : Str → Str → Nat → Nat
  | a :: xs, b :: ys, k + 1 => if a == b then 1 + commonPrefixCapped xs ys k else 0
  | _, _, _ => 0

/-- `NetworkService._jaro_winkler_similarity`, exactly as written: the
transposition count compares each matched `s1` character with the `s2`
character at its own matched index (`s1_matches[i] != s2[s2_matches[i]]`),
and `t = transpositions // 2` is integer division. -/
def jaro_winkler_similarity (s1 s2 : Str) : ℚ :=
  if s1.isEmpty || s2.isEmpty then 0.0
  else
    let pairs := jwMatchPairs s1 s2
    if pairs.isEmpty then 0.0
    else
      let m : ℚ := (pairs.length : ℚ)
      let transpositions := (pairs.filter (fun p => !(s2.get? p.2 == some p.1))).length
      let t : ℚ := ((transpositions / 2 : Nat) : ℚ)
      let jaro := (m / (s1.length : ℚ) + m / (s2.length : ℚ) + (m - t) / m) / 3
      let pfx : ℚ := (commonPrefixCapped s1 s2 4 : ℚ)
      jaro + 0.1 * pfx * (1 - jaro)

/-- Insert into a sorted list of naturals (for the standard transposition
count). -/
def insertLeNat (n : Nat) : List Nat → List Nat
  | [] => [n]
  | m :: t => if n ≤ m then n :: m :: t else m :: insertLeNat n t

/-- Insertion sort on naturals. -/
def sortNat (l : List Nat) : List Nat := l.foldr insertLeNat []

/-- Modelled from the spec: the standard Jaro-Winkler similarity — Jaro
distance with the greedy windowed matching, transpositions counted as half
the number of positions at which the two matched-character sequences,
taken in original order (the `s2` matches sorted by index), differ, plus
the Winkler boost `0.1 · min(commonPrefixLen, 4) · (1 − jaro)`. -/
def standard_jaro_winkler (s1 s2 : Str) : ℚ :=
  if s1.isEmpty || s2.isEmpty then 0.0
  else
    let pairs := jwMatchPairs s1 s2
    if pairs.isEmpty then 0.0
    else
      let m : ℚ := (pairs.length : ℚ)
      let s1Seq := pairs.map Prod.fst
      let s2Seq := (sortNat (pairs.map Prod.snd)).filterMap (fun j => s2.get? j)
      let halfTranspositions := ((s1Seq.zip s2Seq).filter (fun p => !(p.1 == p.2))).length
      let t : ℚ := (halfTranspositions : ℚ) / 2
      let jaro := (m / (s1.length : ℚ) + m / (s2.length : ℚ) + (m - t) / m) / 3
      let pfx : ℚ := (commonPrefixCapped s1 s2 4 : ℚ)
      jaro + 0.1 * pfx * (1 - jaro)

/-- The similarity the source actually computes, written with the
transposition term dropped: since every matched pair stores the index of
an equal character, the counted transpositions are always zero and the
third Jaro term is `m / m = 1`. -/
def jaro_winkler_zero_transpositions (s1 s2 : Str) : ℚ :=
  if s1.isEmpty || s2.isEmpty then 0.0
  else
    let pairs := jwMatchPairs s1 s2
    if pairs.isEmpty then 0.0
    else
      let m : ℚ := (pairs.length : ℚ)
      let jaro := (m / (s1.length : ℚ) + m / (s2.length : ℚ) + 1) / 3
      let pfx : ℚ := (commonPrefixCapped s1 s2 4 : ℚ)
      jaro + 0.1 * pfx * (1 - jaro)

/-- An integer-arithmetic reformulation of the test
`jaro_winkler_similarity s1 s2 ≥ 0.93`, used so that the threshold test
can be decided by kernel computation (rational arithmetic does not
kernel-reduce).  `jwGE93_iff` proves it equivalent. -/
def jwGE93 (s1 s2 : Str) : Bool :=
  if s1.isEmpty || s2.isEmpty then false
  else
    let pairs := jwMatchPairs s1 s2
    if pairs.isEmpty then false
    else
      let m := pairs.length
      let tr := (pairs.filter (fun p => !(s2.get? p.2 == some p.1))).length
      let t := tr / 2
      let p := commonPrefixCapped s1 s2 4
      let A := m * m * s2.length + m * m * s1.length + (m - t) * (s1.length * s2.length)
      decide (93 * (30 * (s1.length * s2.length * m)) ≤
        100 * ((10 - p) * A + 3 * p * (s1.length * s2.length * m)))

/-- Dictionary lookup in the alias table. -/
def aliasLookup (k : Str) : Option Str :=
  (canonical_aliases.find? (fun kv => kv.1 == k)).map Prod.snd

/-- One iteration of the fuzzy-match loop: keep the candidate with the
strictly best score at or above the 0.93 threshold. -/
def fuzzyStep (name : Str) (acc : Option Str × ℚ) (kv : Str × Str) :
    Option Str × ℚ :=
  let score := jaro_winkler_similarity name kv.1
  if score ≥ 0.93 ∧ score > acc.2 then (some kv.2, score) else acc

/-- `NetworkService._fuzzy_match_name`: exact alias hit, else the best
alias with Jaro-Winkler similarity ≥ 0.93 (first such alias wins ties, as
the source keeps the strictly best score in iteration order), else the
title-cased input. -/
def fuzzy_match_name (name : Str) : Str :=
  if name.isEmpty then []
  else
    match canonical_aliases.find? (fun kv => name == kv.1) with
    | some kv => kv.2
    | none =>
      let best := canonical_aliases.foldl (fuzzyStep name)
        ((none : Option Str), (0 : ℚ))
      match best.1 with
      | some canonical => canonical
      | none => titleStr name

/-- `NetworkService.normalize_entity_name`.  The memoization cache of the
source stores previously computed results of this same pure function and
is elided. -/
def normalize_entity_name (name : PyVal) : Str :=
  if pyIsNa name || pyFalsy name then []
  else
    let normalized := stripStr (lowerStr (pyStr name))
    match aliasLookup normalized with
    | some canonical => canonical
    | none =>
      match aliasLookup (stripStr (pyStr name)) with
      | some canonical => canonical
      | none => fuzzy_match_name normalized

/-- `NetworkService.parse_collaborators`: split on `,`/`;`/`|`, strip,
normalize, drop empties, de-duplicate.  Python's `list(set(...))` returns
the distinct names in unspecified order; it is modelled as keeping first
occurrences, which the claims (about the edge set) do not depend on. -/
def parse_collaborators (v : PyVal) : List Str :=
  if pyIsNa v || pyFalsy v then []
  else
    let parts := splitOnAny [',', ';', '|'] (pyStr v) []
    (parts.foldl (fun acc collab =>
      let collab := stripStr collab
      if !collab.isEmpty then
        let n := normalize_entity_name (.vStr collab)
        if !n.isEmpty then acc ++ [n] else acc
      else acc) []).eraseDups

/-- One row of the trial dataframe as `build_network_graph` reads it.
`startDate` holds `pd.to_datetime(trial.get('startDate'), errors='coerce')`
as an integer day number (`none` = NaT, i.e. a missing or unparseable
date). -/
structure NetTrial where
  nctId : Str
  briefTitle : Str
  overallStatus : Str
  phases : Str
  conditions : Str
  country : Str
  startDate : Option ℤ
  leadSponsor : PyVal
  collaborators : PyVal
  deriving DecidableEq

/-- One entry of a node's `trials` list. -/
structure TrialRef where
  nctId : Str
  title : Str
  phase : Str
  status : Str
  startDate : Option ℤ
  condition : Str
  country : Str
  deriving DecidableEq

/-- A graph node before metrics are attached. -/
structure NodeData where
  id : Str
  type : Str
  name : Str
  canonical_name : Str
  aliases : List Str
  trials : List TrialRef
  deriving DecidableEq

/-- A freshly created node (metrics start at zero in the source and are
recomputed wholesale by `_calculate_node_metrics`). -/
def emptyNode (id nodeType : Str) : NodeData :=
  { id := id, type := nodeType, name := id, canonical_name := id,
    aliases := [], trials := [] }

/-- An edge's data before its weight is computed (`'weight': 0` in the
source until `_calculate_edge_weights` overwrites it). -/
structure EdgeData where
  id : Str
  source : Str
  target : Str
  nctIds : List Str
  firstSeen : Option ℤ
  lastSeen : Option ℤ
  phases : List Str
  conditions : List Str
  countries : List Str
  deriving DecidableEq

/-- The `trials` entry appended to the sponsor node for one trial row. -/
def trialRef (t : NetTrial) : TrialRef :=
  { nctId := t.nctId, title := t.briefTitle, phase := t.phases,
    status := t.overallStatus, startDate := t.startDate,
    condition := t.conditions, country := t.country }

/-- `if not firstSeen or start_date < firstSeen: firstSeen = start_date`. -/
def updateFirstSeen (d : ℤ) (e : EdgeData) : EdgeData :=
  match e.firstSeen with
  | none => { e with firstSeen := some d }
  | some f => if d < f then { e with firstSeen := some d } else e

/-- `if not lastSeen or start_date > lastSeen: lastSeen = start_date`. -/
def updateLastSeen (d : ℤ) (e : EdgeData) : EdgeData :=
  match e.lastSeen with
  | none => { e with lastSeen := some d }
  | some l => if d > l then { e with lastSeen := some d } else e

/-- The metadata update one trial applies to its (sponsor, collaborator)
edge: append the trial id, append non-empty phase/condition/country, and
push `firstSeen` down and `lastSeen` up when the trial has a valid start
date. -/
def updateEdgeMeta (t : NetTrial) (e : EdgeData) : EdgeData :=
  let e := { e with nctIds := e.nctIds ++ [t.nctId] }
  let e := if !t.phases.isEmpty then { e with phases := e.phases ++ [t.phases] } else e
  let e := if !t.conditions.isEmpty then
    { e with conditions := e.conditions ++ [t.conditions] } else e
  let e := if !t.country.isEmpty then
    { e with countries := e.countries ++ [t.country] } else e
  match t.startDate with
  | none => e
  | some d => updateLastSeen d (updateFirstSeen d e)

/-- The per-collaborator step of `build_network_graph`: skip empty
collaborators and self-loops, create the institution node and the
(sponsor, collaborator) edge on first sight, then update the edge's
metadata. -/
def processCollaborator (t : NetTrial) (lead : Str)
    (st : List NodeData × List EdgeData) (collaborator : Str) :
    List NodeData × List EdgeData :=
  if !collaborator.isEmpty && collaborator ≠ lead then
    let nodes := if st.1.any (fun n => n.id == collaborator) then st.1
      else st.1 ++ [emptyNode collaborator "institution".data]
    if lead.isEmpty then (nodes, st.2)
    else
      let edgeId := lead ++ "__".data ++ collaborator
      let newEdge : EdgeData :=
        { id := edgeId, source := lead, target := collaborator,
          nctIds := [], firstSeen := t.startDate, lastSeen := t.startDate,
          phases := [], conditions := [], countries := [] }
      let edges := if st.2.any (fun e => e.id == edgeId) then st.2
        else st.2 ++ [newEdge]
      (nodes, edges.map (fun e => if e.id == edgeId then updateEdgeMeta t e else e))
  else st

/-- The per-trial step of `build_network_graph`: normalize the lead
sponsor, add/extend its sponsor node, then process every parsed
collaborator.  (The source also calls `parse_officials` here, but its
result is unused — the investigator section is commented out.) -/
def processTrial (st : List NodeData × List EdgeData) (t : NetTrial) :
    List NodeData × List EdgeData :=
  let lead := normalize_entity_name t.leadSponsor
  let collaborators := parse_collaborators t.collaborators
  let nodes :=
    if lead.isEmpty then st.1
    else
      let withNode := if st.1.any (fun n => n.id == lead) then st.1
        else st.1 ++ [emptyNode lead "sponsor".data]
      withNode.map (fun n =>
        if n.id == lead then { n with trials := n.trials ++ [trialRef t] } else n)
  collaborators.foldl (processCollaborator t lead) (nodes, st.2)

/-- `processTrial` with the normalizer's two results abstracted out: equal
to `processTrial` by `processTrial_eq_with` below, and used to evaluate the
builder on concrete trials without re-evaluating the alias scan. -/
def processTrialWith (lead : Str) (collabs : List Str)
    (st : List NodeData × List EdgeData) (t : NetTrial) :
    List NodeData × List EdgeData :=
  let nodes :=
    if lead.isEmpty then st.1
    else
      let withNode := if st.1.any (fun n => n.id == lead) then st.1
        else st.1 ++ [emptyNode lead "sponsor".data]
      withNode.map (fun n =>
        if n.id == lead then { n with trials := n.trials ++ [trialRef t] } else n)
  collabs.foldl (processCollaborator t lead) (nodes, st.2)

/-- The node/edge accumulation loop of `build_network_graph`. -/
def buildGraphData (trials : List NetTrial) : List NodeData × List EdgeData :=
  trials.foldl processTrial ([], [])

/-- The optional filters of `build_network_graph`. -/
structure NetFilters where
  therapeutic_area : Option Str
  phase : Option Str
  country : Option Str
  timeframe : Option Str

/-- Python's truthiness test `filters.get(key)` on an optional string. -/
def filterTruthy : Option Str → Option Str
  | some p => if p.isEmpty then none else some p
  | none => none

/-- `NetworkService._apply_filters`.  The pandas `str.contains(...,
case=False)` tests are modelled as case-insensitive substring containment
(none of the repository's filter values uses regex metacharacters). -/
def apply_filters (now : ℤ) (filters : NetFilters) (trials : List NetTrial) :
    List NetTrial :=
  let t1 := match filterTruthy filters.therapeutic_area with
    | some pat => trials.filter (fun t => containsSub (lowerStr t.conditions) (lowerStr pat))
    | none => trials
  let t2 := match filterTruthy filters.phase with
    | some pat => t1.filter (fun t => containsSub (lowerStr t.phases) (lowerStr pat))
    | none => t1
  let t3 := match filterTruthy filters.country with
    | some pat => t2.filter (fun t => containsSub (lowerStr t.country) (lowerStr pat))
    | none => t2
  match filterTruthy filters.timeframe with
  | none => t3
  | some tf =>
    let cutoff : Option ℤ :=
      if tf = "1y".data then some (now - 365)
      else if tf = "5y".data then some (now - 1825)
      else if tf = "all".data then none
      else some (now - 365)
    match cutoff with
    | none => t3
    | some c => t3.filter (fun t => match t.startDate with
        | some d => decide (d ≥ c)
        | none => false)

/-- One weighting-mode configuration of `_calculate_edge_weights`. -/
structure WeightConfig where
  decay_rate : ℚ
  recency_boost_factor : ℚ
  boost_cutoff_months : ℚ
  min_edge_weight_to_show : ℚ

/-- The `weighting_configs` table with its `.get(mode, established_network)`
default. -/
def weighting_configs (mode : Str) : WeightConfig :=
  if mode = "fresh_collaborations".data then ⟨0.99, 1.0, 6, 1.4⟩
  else if mode = "only_recent".data then ⟨0.97, 1.2, 12, 1.6⟩
  else ⟨0.985, 0.4, 3, 1.0⟩

/-- The weight one backing-trial iteration adds for an edge, exactly as in
`_calculate_edge_weights`: it is computed from the date string the loop
reads — which is the **edge's** `firstSeen`, not the iterated trial's own
start date (`start_date_str = edge['meta']['firstSeen']`; the loop
variable `nct_id` is never used).  `months_since` is `(now − start).days /
30`; under `only_recent` a date more than `boost_cutoff_months` months old
contributes zero; otherwise the contribution is
`decay_rate ** max(0, months_since)`, multiplied by `(1 + boost)` inside
the cutoff window.  An empty `firstSeen` adds nothing (the `if
start_date_str:` guard); the source's `except` branch (flat weight 1) is
unreachable for the timestamps the builder itself stored and is not
modelled. -/
noncomputable def trialContribution (now : ℤ) (mode : Str) (cfg : WeightConfig)
    (firstSeen : Option ℤ) : ℝ :=
  match firstSeen with
  | none => 0
  | some d =>
    let monthsSince : ℚ := ((now - d : ℤ) : ℚ) / 30
    if mode = "only_recent".data ∧ monthsSince > cfg.boost_cutoff_months then 0
    else
      let baseWeight : ℝ := (cfg.decay_rate : ℝ) ^ ((max 0 monthsSince : ℚ) : ℝ)
      if monthsSince ≤ cfg.boost_cutoff_months then
        baseWeight * (1 + (cfg.recency_boost_factor : ℝ))
      else baseWeight

/-- An edge's raw weight: the sum, over its backing trial ids, of
`trialContribution` — each term computed from the edge's `firstSeen`. -/
noncomputable def rawEdgeWeight (now : ℤ) (mode : Str) (e : EdgeData) : ℝ :=
  e.nctIds.foldl (fun w _ => w + trialContribution now mode (weighting_configs mode) e.firstSeen) 0

/-- A finished edge: its data plus the rescaled weight. -/
structure NetEdge extends EdgeData where
  weight : ℝ

/-- `NetworkService._calculate_edge_weights`: compute the raw weights,
then rescale them linearly onto [0, 10] from the global min/max with a
floor of 0.5 and two-decimal rounding; if all raw weights are equal every
edge gets 5.0. -/
noncomputable def calculate_edge_weights (now : ℤ) (mode : Str)
    (edges : List EdgeData) : List NetEdge :=
  match edges.map (rawEdgeWeight now mode) with
  | [] => []
  | w :: ws =>
    let wMin := ws.foldl min w
    let wMax := ws.foldl max w
    if wMax > wMin then
      edges.map (fun e =>
        { toEdgeData := e,
          weight := max 0.5 (round2R ((rawEdgeWeight now mode e - wMin) / (wMax - wMin) * 10)) })
    else
      edges.map (fun e => { toEdgeData := e, weight := 5.0 })

/-- A finished node: its data plus the metrics of
`_calculate_node_metrics`. -/
structure NetNode extends NodeData where
  degree : Nat
  weighted_degree : ℝ
  recent_activity : Nat

/-- `NetworkService._calculate_node_metrics`: degree counts one entry per
incident edge endpoint, weighted degree sums their weights, and recent
activity counts incident edges whose `lastSeen` is within 365 days. -/
noncomputable def calculate_node_metrics (now : ℤ) (nodes : List NodeData)
    (edges : List NetEdge) : List NetNode :=
  nodes.map (fun n =>
    let asSource := edges.filter (fun e => e.source == n.id)
    let asTarget := edges.filter (fun e => e.target == n.id)
    let incident := edges.filter (fun e => e.source == n.id || e.target == n.id)
    { toNodeData := n
      degree := asSource.length + asTarget.length
      weighted_degree := ((asSource ++ asTarget).map NetEdge.weight).sum
      recent_activity := (incident.filter (fun e => match e.lastSeen with
        | some l => decide (now - l ≤ 365)
        | none => false)).length })

/-- Stable descending insertion by weight: Python's
`sorted(..., key=weight, reverse=True)`. -/
noncomputable def insertByWeightDesc (p : Str × ℝ) : List (Str × ℝ) → List (Str × ℝ)
  | [] => [p]
  | q :: t => if p.2 ≥ q.2 then p :: q :: t else q :: insertByWeightDesc p t

/-- Stable descending sort by weight. -/
noncomputable def sortByWeightDesc (l : List (Str × ℝ)) : List (Str × ℝ) :=
  l.foldr insertByWeightDesc []

/-- Append `(edge id, weight)` to one node's connection list, creating the
node's entry on first sight. -/
def addConnection (m : List (Str × List (Str × ℝ))) (node : Str) (p : Str × ℝ) :
    List (Str × List (Str × ℝ)) :=
  if m.any (fun kv => kv.1 == node) then
    m.map (fun kv => if kv.1 == node then (kv.1, kv.2 ++ [p]) else kv)
  else m ++ [(node, [p])]

/-- `NetworkService._filter_top_k_connections`: group incident edges per
node, keep each node's `k` heaviest edge ids, and keep an edge when either
endpoint kept it. -/
noncomputable def filter_top_k_connections (edges : List NetEdge) (k : Nat) :
    List NetEdge :=
  let conns := edges.foldl (fun m e =>
    addConnection (addConnection m e.source (e.id, e.weight)) e.target (e.id, e.weight)) []
  let keep := conns.foldl (fun acc kv =>
    acc ++ ((sortByWeightDesc kv.2).take k).map Prod.fst) ([] : List Str)
  edges.filter (fun e => keep.contains e.id)

/-- The graph `build_network_graph` returns. -/
structure NetworkGraph where
  nodes : List NetNode
  edges : List NetEdge

/-- `NetworkService.build_network_graph`: optional filters, node/edge
accumulation, edge weighting, node metrics, optional top-K pruning.  The
result cache of the source is cleared at the end of every call
(`self.graph_cache.clear()`, left in for debugging) and is elided. -/
noncomputable def build_network_graph (trials : List NetTrial)
    (filters : Option NetFilters) (weighting_mode : Str) (top_k : Option Nat)
    (now : ℤ) : NetworkGraph :=
  let df := match filters with
    | some f => apply_filters now f trials
    | none => trials
  let st := buildGraphData df
  let edges := calculate_edge_weights now weighting_mode st.2
  let nodes := calculate_node_metrics now st.1 edges
  let finalEdges := match top_k with
    | some k => if 0 < k then filter_top_k_connections edges k else edges
    | none => edges
  { nodes := nodes, edges := finalEdges }

/-- The concrete PHASE3/COMPLETED Pfizer record of the spec's scenario:
positive outcomes text, mortality primary outcome, randomized-parallel
allocation, double-blind masking, enrollment 350, eligibility mentioning
ages 18-65 and both sexes, no biomarker keyword, and nothing that earns a
bonus or a penalty. -/
def pfizerTrial : TrialData :=
  { nctId := .vStr "NCT90000001".data
    briefTitle := .vStr "A study".data
    officialTitle := .vStr [], overallStatus := .vStr "COMPLETED".data
    phases := .vStr "PHASE3".data, studyType := .vStr "INTERVENTIONAL".data
    conditions := .vStr "Parkinson Disease".data, interventions := .vStr []
    enrollmentCount := .vInt 350, startDate := .vStr [], completionDate := .vStr []
    locations := .vStr [], leadSponsor := .vStr "Pfizer Inc.".data
    primaryOutcomes := .vStr "Positive effect on mortality".data
    eligibilityCriteria := .vStr "Ages 18-65, male and female participants".data
    allocation := .vStr "RANDOMIZED, PARALLEL".data
    masking := .vStr "DOUBLE-BLIND".data, keywords := .vStr []
    briefSummary := .vStr [], ipdSharing := .vStr [], ipdDescription := .vStr [] }

/-- A minimal present record for the failure-semantics claims. -/
def c8Trial : TrialData :=
  { nctId := .vStr "NCT80000001".data
    briefTitle := .vStr [], officialTitle := .vStr []
    overallStatus := .vStr "COMPLETED".data
    phases := .vStr "PHASE2".data, studyType := .vStr []
    conditions := .vStr [], interventions := .vStr []
    enrollmentCount := .vInt 50, startDate := .vStr [], completionDate := .vStr []
    locations := .vStr [], leadSponsor := .vStr "Acme".data
    primaryOutcomes := .vStr [], eligibilityCriteria := .vStr []
    allocation := .vStr [], masking := .vStr [], keywords := .vStr []
    briefSummary := .vStr [], ipdSharing := .vStr [], ipdDescription := .vStr [] }

/-- A terminated trial whose only safety-sounding text is the word
`Pharmaceuticals` in its sponsor's name. -/
def c9Trial : TrialData :=
  { nctId := .vStr "NCT70000001".data
    briefTitle := .vStr "A study of exercise".data
    officialTitle := .vStr [], overallStatus := .vStr "TERMINATED".data
    phases := .vStr "PHASE2".data, studyType := .vStr []
    conditions := .vStr [], interventions := .vStr []
    enrollmentCount := .vInt 10, startDate := .vStr [], completionDate := .vStr []
    locations := .vStr [], leadSponsor := .vStr "Contoso Pharmaceuticals".data
    primaryOutcomes := .vStr [], eligibilityCriteria := .vStr []
    allocation := .vStr [], masking := .vStr [], keywords := .vStr []
    briefSummary := .vStr "Enrollment shortfall".data
    ipdSharing := .vStr [], ipdDescription := .vStr [] }

/-- A females-only trial: the eligibility text mentions `female` but never
male participants separately. -/
def c10Trial : TrialData :=
  { nctId := .vStr "NCT60000001".data
    briefTitle := .vStr [], officialTitle := .vStr []
    overallStatus := .vStr "RECRUITING".data
    phases := .vStr "PHASE2".data, studyType := .vStr []
    conditions := .vStr [], interventions := .vStr []
    enrollmentCount := .vInt 40, startDate := .vStr [], completionDate := .vStr []
    locations := .vStr [], leadSponsor := .vStr "Acme".data
    primaryOutcomes := .vStr [], eligibilityCriteria := .vStr "female participants aged 20-40 only".data
    allocation := .vStr [], masking := .vStr [], keywords := .vStr []
    briefSummary := .vStr [], ipdSharing := .vStr [], ipdDescription := .vStr [] }

/-- The reference instant of the weighting scenario, as a day number. -/
def c2now : ℤ := 20000

/-- The weighting scenario of the spec: one sponsor–collaborator pair
(`Alpha`, `Beta`) backed by a very old trial (60 months before `c2now`)
and a recent one (1 month), and a second pair (`Gamma`, `Delta`) backed by
one recent trial only. -/
def c2t1 : NetTrial :=
  { nctId := "NCT50000001".data, briefTitle := [], overallStatus := [], phases := [],
    conditions := [], country := [], startDate := some 18200,
    leadSponsor := .vStr "Alpha".data, collaborators := .vStr "Beta".data }

/-- The recent Alpha–Beta trial of the weighting scenario (one month
before `c2now`). -/
def c2t2 : NetTrial :=
  { nctId := "NCT50000002".data, briefTitle := [], overallStatus := [], phases := [],
    conditions := [], country := [], startDate := some 19970,
    leadSponsor := .vStr "Alpha".data, collaborators := .vStr "Beta".data }

/-- The single recent Gamma–Delta trial of the weighting scenario. -/
def c2t3 : NetTrial :=
  { nctId := "NCT50000003".data, briefTitle := [], overallStatus := [], phases := [],
    conditions := [], country := [], startDate := some 19970,
    leadSponsor := .vStr "Gamma".data, collaborators := .vStr "Delta".data }

def c2Trials : List NetTrial := [c2t1, c2t2, c2t3]

/-- A single trial with no parseable start date, used to exercise the
degenerate equal-raw-weights branch of the edge weighting. -/
def c6Trial : NetTrial :=
  { nctId := "NCT40000001".data, briefTitle := [], overallStatus := [], phases := [],
    conditions := [], country := [], startDate := none,
    leadSponsor := .vStr "Alpha".data, collaborators := .vStr "Beta".data }

/-- The list of raw edge weights `_calculate_edge_weights` rescales for a
given call of `build_network_graph` (the edges of the filtered dataframe,
in construction order). -/
noncomputable def graph_raw_weights (trials : List NetTrial)
    (filters : Option NetFilters) (mode : Str) (now : ℤ) : List ℝ :=
  (buildGraphData (match filters with
    | some f => apply_filters now f trials
    | none => trials)).2.map (rawEdgeWeight now mode)

/-- The single edge the one-trial example graph contains, before
weighting. -/
def c6ExampleEdgeData : EdgeData :=
  { id := "Alpha__Beta".data, source := "Alpha".data, target := "Beta".data,
    nctIds := ["NCT40000001".data], firstSeen := none, lastSeen := none,
    phases := [], conditions := [], countries := [] }

/-- The single edge of the one-trial example graph: all raw weights are
equal (the trial has no date), so the degenerate branch assigns 5.0. -/
noncomputable def c6ExampleEdge : NetEdge :=
  { toEdgeData := c6ExampleEdgeData, weight := 5.0 }

/-- The Alpha–Beta edge of the weighting scenario: backed by both the old
and the recent trial, with `firstSeen` the old date. -/
def c2EdgeAB : EdgeData :=
  { id := "Alpha__Beta".data, source := "Alpha".data, target := "Beta".data,
    nctIds := ["NCT50000001".data, "NCT50000002".data],
    firstSeen := some 18200, lastSeen := some 19970,
    phases := [], conditions := [], countries := [] }

/-- The Gamma–Delta edge of the weighting scenario: backed by the single
recent trial. -/
def c2EdgeGD : EdgeData :=
  { id := "Gamma__Delta".data, source := "Gamma".data, target := "Delta".data,
    nctIds := ["NCT50000003".data],
    firstSeen := some 19970, lastSeen := some 19970,
    phases := [], conditions := [], countries := [] }

/-! ## Helper lemmas -/

theorem containsSub_iff_infix {hay pat : Str} :
    containsSub hay pat = true ↔ pat <:+: hay := by
  induction hay with
  | nil => simp [containsSub, List.isEmpty_iff]
  | cons c t ih => simp [containsSub, ih, List.infix_cons_iff]

theorem containsSub_of_infix {hay pat sub : Str}
    (h : containsSub hay pat = true) (hs : sub <:+: pat) :
    containsSub hay sub = true :=
  containsSub_iff_infix.2 (hs.trans ( containsSub_iff_infix.1 h))

theorem infix_dropWhile_iff {k : Char} {kt : Str} (hk : k.isWhitespace = false)
    (l : Str) :
    (k :: kt) <:+: l.dropWhile Char.isWhitespace ↔ (k :: kt) <:+: l := by
  induction l with
  | nil => simp
  | cons c t ih =>
    by_cases hc : c.isWhitespace
    · rw [List.dropWhile_cons_of_pos hc, ih, List.infix_cons_iff]
      constructor
      · exact Or.inr
      · rintro (hp | h)
        · rcases List.cons_prefix_cons.1 hp with ⟨hkc, -⟩
          rw [hkc] at hk
          simp [hc] at hk
        · exact h
    · rw [List.dropWhile_cons_of_neg hc]

theorem containsSub_stripStr {k : Char} {kt : Str}
    (hall : ∀ c ∈ k :: kt, c.isWhitespace = false) (s : Str) :
    containsSub (stripStr s) (k :: kt) = containsSub s (k :: kt) := by
  have hk : k.isWhitespace = false := hall k (by simp)
  obtain ⟨k', kt', hr⟩ : ∃ k' kt', (k :: kt).reverse = k' :: kt' := by
    cases hrev : (k :: kt).reverse with
    | nil => exact absurd (List.reverse_eq_nil_iff.1 hrev) (by simp)
    | cons a b => exact ⟨a, b, rfl⟩
  have hk' : k'.isWhitespace = false := by
    have : k' ∈ (k :: kt).reverse := by rw [hr]; exact List.mem_cons_self _ _
    exact hall k' (List.mem_reverse.1 this)
  have key : containsSub (stripStr s) (k :: kt) = true ↔
      containsSub s (k :: kt) = true := by
    rw [ containsSub_iff_infix, containsSub_iff_infix]
    unfold stripStr
    calc (k :: kt) <:+: ((s.dropWhile Char.isWhitespace).reverse.dropWhile
          Char.isWhitespace).reverse
        ↔ (k :: kt).reverse <:+:
            (s.dropWhile Char.isWhitespace).reverse.dropWhile Char.isWhitespace := by
          conv_lhs => rw [← List.reverse_reverse (k :: kt)]
          exact List.reverse_infix
      _ ↔ (k :: kt).reverse <:+: (s.dropWhile Char.isWhitespace).reverse := by
          rw [hr]; exact infix_dropWhile_iff hk' _
      _ ↔ (k :: kt) <:+: s.dropWhile Char.isWhitespace := List.reverse_infix
      _ ↔ (k :: kt) <:+: s := infix_dropWhile_iff hk _
  cases h1 : containsSub (stripStr s) (k :: kt) <;>
    cases h2 : containsSub s (k :: kt) <;> simp_all

theorem round2_mono {x y : ℚ} (h : x ≤ y) : round2 x ≤ round2 y := by
  have h2 : round (100 * x) ≤ round (100 * y) := by
    rw [round_eq, round_eq]
    exact Int.floor_le_floor (by linarith)
  have h3 : ((round (100 * x) : ℤ) : ℚ) ≤ ((round (100 * y) : ℤ) : ℚ) := by
    exact_mod_cast h2
  unfold round2
  linarith

/-! ## Claim theorems -/

/-- Claim C4: `calculate_phase_prior` matches on the uppercased,
whitespace-stripped phases string and returns 1.2 for PHASE4, 0.9 for
PHASE3, 0.6 for PHASE2, 0.3 for combined PHASE1/2 (checked before PHASE1
alone), 0.2 for PHASE1 and 0.1 otherwise; for otherwise-identical records
the ordering PHASE4 > PHASE3 > PHASE2 > PHASE1/2 > PHASE1 > unknown is
strict. -/
theorem c4_phase_prior_cascade :
    (∀ td : TrialData,
      (containsSub (stripStr (phaseString td)) "PHASE4".data = true →
        calculate_phase_prior td = 1.2) ∧
      (containsSub (stripStr (phaseString td)) "PHASE4".data = false →
        containsSub (stripStr (phaseString td)) "PHASE3".data = true →
        calculate_phase_prior td = 0.9) ∧
      (containsSub (stripStr (phaseString td)) "PHASE4".data = false →
        containsSub (stripStr (phaseString td)) "PHASE3".data = false →
        containsSub (stripStr (phaseString td)) "PHASE2".data = true →
        calculate_phase_prior td = 0.6) ∧
      (containsSub (stripStr (phaseString td)) "PHASE4".data = false →
        containsSub (stripStr (phaseString td)) "PHASE3".data = false →
        containsSub (stripStr (phaseString td)) "PHASE2".data = false →
        (containsSub (stripStr (phaseString td)) "PHASE1/2".data = true ∨
          containsSub (stripStr (phaseString td)) "PHASE12".data = true) →
        calculate_phase_prior td = 0.3) ∧
      (containsSub (stripStr (phaseString td)) "PHASE4".data = false →
        containsSub (stripStr (phaseString td)) "PHASE3".data = false →
        containsSub (stripStr (phaseString td)) "PHASE2".data = false →
        containsSub (stripStr (phaseString td)) "PHASE1/2".data = false →
        containsSub (stripStr (phaseString td)) "PHASE12".data = false →
        containsSub (stripStr (phaseString td)) "PHASE1".data = true →
        calculate_phase_prior td = 0.2) ∧
      (containsSub (stripStr (phaseString td)) "PHASE4".data = false →
        containsSub (stripStr (phaseString td)) "PHASE3".data = false →
        containsSub (stripStr (phaseString td)) "PHASE2".data = false →
        containsSub (stripStr (phaseString td)) "PHASE1/2".data = false →
        containsSub (stripStr (phaseString td)) "PHASE12".data = false →
        containsSub (stripStr (phaseString td)) "PHASE1".data = false →
        calculate_phase_prior td = 0.1)) ∧
    (∀ td : TrialData,
      calculate_phase_prior { td with phases := .vStr "PHASE4".data } >
        calculate_phase_prior { td with phases := .vStr "PHASE3".data } ∧
      calculate_phase_prior { td with phases := .vStr "PHASE3".data } >
        calculate_phase_prior { td with phases := .vStr "PHASE2".data } ∧
      calculate_phase_prior { td with phases := .vStr "PHASE2".data } >
        calculate_phase_prior { td with phases := .vStr "PHASE1/2".data } ∧
      calculate_phase_prior { td with phases := .vStr "PHASE1/2".data } >
        calculate_phase_prior { td with phases := .vStr "PHASE1".data } ∧
      calculate_phase_prior { td with phases := .vStr "PHASE1".data } >
        calculate_phase_prior { td with phases := .vStr "UNKNOWN".data }) := by
  constructor
  · intro td
    have e4 : containsSub (stripStr (phaseString td)) "PHASE4".data =
        containsSub (phaseString td) "PHASE4".data :=
      containsSub_stripStr (by decide) _
    have e3 : containsSub (stripStr (phaseString td)) "PHASE3".data =
        containsSub (phaseString td) "PHASE3".data :=
      containsSub_stripStr (by decide) _
    have e2 : containsSub (stripStr (phaseString td)) "PHASE2".data =
        containsSub (phaseString td) "PHASE2".data :=
      containsSub_stripStr (by decide) _
    have e12 : containsSub (stripStr (phaseString td)) "PHASE1/2".data =
        containsSub (phaseString td) "PHASE1/2".data :=
      containsSub_stripStr (by decide) _
    have e12b : containsSub (stripStr (phaseString td)) "PHASE12".data =
        containsSub (phaseString td) "PHASE12".data :=
      containsSub_stripStr (by decide) _
    have e1 : containsSub (stripStr (phaseString td)) "PHASE1".data =
        containsSub (phaseString td) "PHASE1".data :=
      containsSub_stripStr (by decide) _
    rw [e4, e3, e2, e12, e12b, e1]
    unfold calculate_phase_prior
    refine ⟨fun h4 => by simp [h4], fun h4 h3 => by simp [h4, h3],
      fun h4 h3 h2 => by simp [h4, h3, h2], fun h4 h3 h2 h12 => ?_,
      fun h4 h3 h2 h12 h12b h1 => by simp [h4, h3, h2, h12, h12b, h1],
      fun h4 h3 h2 h12 h12b h1 => by simp [h4, h3, h2, h12, h12b, h1]⟩
    rcases h12 with h | h <;> simp [h4, h3, h2, h]
  · intro td
    refine ⟨?_, ?_, ?_, ?_, ?_⟩ <;>
      norm_num +decide [calculate_phase_prior, phaseString, pyGet, pyStr]

/-- Claim C4 witness: the PHASE3 branch at the concrete Pfizer record. -/
theorem c4_phase_prior_cascade_witness :
    calculate_phase_prior pfizerTrial = 0.9 :=
  ((c4_phase_prior_cascade.1 pfizerTrial).2.1) (by decide) (by decide)

/-- Claim C5: the PHASE3 COMPLETED Pfizer scenario scores
outcome 1.2, phase 0.9, sponsor 0.8, design 0.8, enrollment 0.6, validity
0.3, hence base 4.6; with zero bonuses and zero penalty the total is 4.6,
interpreted as EXCELLENT / HIGHLY RELIABLE. -/
theorem c5_pfizer_scenario :
    calculate_outcome_evidence pfizerTrial = 1.2 ∧
    calculate_phase_prior pfizerTrial = 0.9 ∧
    calculate_sponsor_track_record pfizerTrial = 0.8 ∧
    calculate_study_design_integrity pfizerTrial = 0.8 ∧
    calculate_enrollment_fulfillment pfizerTrial = 0.6 ∧
    calculate_external_validity pfizerTrial = 0.3 ∧
    (mkTrialScore pfizerTrial "NCT90000001".data (.ok []) (.ok [])
        "2025-01-01T00:00:00".data).base_score = 4.6 ∧
    (mkTrialScore pfizerTrial "NCT90000001".data (.ok []) (.ok [])
        "2025-01-01T00:00:00".data).regulatory_acceleration_bonus = 0 ∧
    (mkTrialScore pfizerTrial "NCT90000001".data (.ok []) (.ok [])
        "2025-01-01T00:00:00".data).high_impact_publication_bonus = 0 ∧
    (mkTrialScore pfizerTrial "NCT90000001".data (.ok []) (.ok [])
        "2025-01-01T00:00:00".data).data_sharing_bonus = 0 ∧
    (mkTrialScore pfizerTrial "NCT90000001".data (.ok []) (.ok [])
        "2025-01-01T00:00:00".data).termination_penalty = 0 ∧
    (mkTrialScore pfizerTrial "NCT90000001".data (.ok []) (.ok [])
        "2025-01-01T00:00:00".data).total_score = 4.6 ∧
    (mkTrialScore pfizerTrial "NCT90000001".data (.ok []) (.ok [])
        "2025-01-01T00:00:00".data).interpretation = "HIGHLY RELIABLE".data ∧
    get_interpretation (mkTrialScore pfizerTrial "NCT90000001".data (.ok [])
        (.ok []) "2025-01-01T00:00:00".data).total_score = "EXCELLENT".data := by
  norm_num +decide [calculate_outcome_evidence, calculate_phase_prior, phaseString,
    calculate_sponsor_track_record, scorerTopTier, scorerMidTier,
    calculate_study_design_integrity, calculate_enrollment_fulfillment,
    calculate_external_validity, externalValidityAge, bothSexesCond,
    externalValidityBiomarker, ageKeywords, strictFilters,
    calculate_regulatory_acceleration_bonus, calculate_data_sharing_bonus,
    calculate_termination_penalty, safetyKeywords, futilityKeywords,
    calculate_high_impact_publication_bonus, fetch_clinicaltrials_publications,
    fetch_pubmed_publications, mkTrialScore, TrialScore.base_score,
    TrialScore.total_score, TrialScore.interpretation, get_interpretation,
    round2, round_eq, pfizerTrial, pyGet, pyStr, pyIsNa, pyEqZero, pyToInt]

theorem outcome_evidence_mem (td : TrialData) :
    0 ≤ calculate_outcome_evidence td ∧ calculate_outcome_evidence td ≤ 1.2 := by
  unfold calculate_outcome_evidence
  refine ⟨?_, ?_⟩ <;> dsimp only <;> (repeat' split) <;> norm_num

theorem phase_prior_mem (td : TrialData) :
    0 ≤ calculate_phase_prior td ∧ calculate_phase_prior td ≤ 1.2 := by
  unfold calculate_phase_prior
  refine ⟨?_, ?_⟩ <;> dsimp only <;> (repeat' split) <;> norm_num

theorem sponsor_track_record_mem (td : TrialData) :
    0 ≤ calculate_sponsor_track_record td ∧
      calculate_sponsor_track_record td ≤ 0.8 := by
  unfold calculate_sponsor_track_record
  refine ⟨?_, ?_⟩ <;> dsimp only <;> (repeat' split) <;> norm_num

theorem study_design_integrity_mem (td : TrialData) :
    0 ≤ calculate_study_design_integrity td ∧
      calculate_study_design_integrity td ≤ 0.8 := by
  unfold calculate_study_design_integrity
  refine ⟨?_, ?_⟩ <;> dsimp only <;> (repeat' split) <;> norm_num [round2, round_eq]

theorem enrollment_fulfillment_mem (td : TrialData) :
    0 ≤ calculate_enrollment_fulfillment td ∧
      calculate_enrollment_fulfillment td ≤ 0.6 := by
  unfold calculate_enrollment_fulfillment
  refine ⟨?_, ?_⟩ <;> dsimp only <;> (repeat' split) <;> norm_num

theorem external_validity_mem (td : TrialData) :
    0 ≤ calculate_external_validity td ∧ calculate_external_validity td ≤ 0.4 := by
  unfold calculate_external_validity externalValidityAge externalValidityBiomarker
  refine ⟨?_, ?_⟩ <;> dsimp only <;> (repeat' split) <;> norm_num [round2, round_eq]

theorem termination_penalty_mem (td : TrialData) :
    -1 ≤ calculate_termination_penalty td ∧ calculate_termination_penalty td ≤ 0 := by
  unfold calculate_termination_penalty
  refine ⟨?_, ?_⟩ <;> dsimp only <;> (repeat' split) <;> norm_num

/-- Claim C1: for every trial record — whatever combination of missing,
unparseable or garbage values its cells hold — each of the six scorer
components lies in its documented bound, and the base score and total
score of the resulting `TrialScore` both lie in [0, 5]. -/
theorem c1_component_and_score_bounds :
    ∀ (td : TrialData) (nctId : Str) (ct pm : FetchOutcome) (now : Str),
      (0 ≤ calculate_outcome_evidence td ∧ calculate_outcome_evidence td ≤ 1.2) ∧
      (0 ≤ calculate_phase_prior td ∧ calculate_phase_prior td ≤ 1.2) ∧
      (0 ≤ calculate_sponsor_track_record td ∧
        calculate_sponsor_track_record td ≤ 0.8) ∧
      (0 ≤ calculate_study_design_integrity td ∧
        calculate_study_design_integrity td ≤ 0.8) ∧
      (0 ≤ calculate_enrollment_fulfillment td ∧
        calculate_enrollment_fulfillment td ≤ 0.6) ∧
      (0 ≤ calculate_external_validity td ∧ calculate_external_validity td ≤ 0.4) ∧
      (0 ≤ (mkTrialScore td nctId ct pm now).base_score ∧
        (mkTrialScore td nctId ct pm now).base_score ≤ 5) ∧
      (0 ≤ (mkTrialScore td nctId ct pm now).total_score ∧
        (mkTrialScore td nctId ct pm now).total_score ≤ 5) := by
  intro td nctId ct pm now
  obtain ⟨h1a, h1b⟩ := outcome_evidence_mem td
  obtain ⟨h2a, h2b⟩ := phase_prior_mem td
  obtain ⟨h3a, h3b⟩ := sponsor_track_record_mem td
  obtain ⟨h4a, h4b⟩ := study_design_integrity_mem td
  obtain ⟨h5a, h5b⟩ := enrollment_fulfillment_mem td
  obtain ⟨h6a, h6b⟩ := external_validity_mem td
  have hbase : 0 ≤ (mkTrialScore td nctId ct pm now).base_score ∧
      (mkTrialScore td nctId ct pm now).base_score ≤ 5 := by
    unfold TrialScore.base_score mkTrialScore
    dsimp only
    constructor
    · calc (0 : ℚ) = round2 0 := by norm_num [round2, round_eq]
        _ ≤ _ := round2_mono (le_min (by norm_num) (by linarith))
    · calc round2 _ ≤ round2 5.0 := round2_mono (min_le_left _ _)
        _ = 5 := by norm_num [round2, round_eq]
  refine ⟨⟨h1a, h1b⟩, ⟨h2a, h2b⟩, ⟨h3a, h3b⟩, ⟨h4a, h4b⟩, ⟨h5a, h5b⟩,
    ⟨h6a, h6b⟩, hbase, ?_, ?_⟩
  · unfold TrialScore.total_score
    dsimp only
    calc (0 : ℚ) = round2 0.0 := by norm_num [round2, round_eq]
      _ ≤ _ := round2_mono (le_max_left _ _)
  · unfold TrialScore.total_score
    dsimp only
    calc round2 _ ≤ round2 5.0 := round2_mono (max_le (by norm_num) (min_le_left _ _))
      _ = 5 := by norm_num [round2, round_eq]

/-- Claim C9: `calculate_termination_penalty` searches the lower-cased
rendering of the whole record for keywords including `harm`; since `harm`
is a substring of `pharma`, every TERMINATED record whose rendering
mentions `pharma` gets the safety/futility penalty −1.0 instead of the
−0.8 unknown-reason penalty. -/
theorem c9_pharma_triggers_safety_penalty :
    ∀ (td : TrialData) (s : Str),
      td.overallStatus = .vStr s →
      upperStr s = "TERMINATED".data →
      containsSub (lowerStr (renderTrialData td)) "pharma".data = true →
      calculate_termination_penalty td = -1.0 := by
  intro td s hs hup hsub
  have hharm : containsSub (lowerStr (renderTrialData td)) "harm".data = true :=
    containsSub_of_infix hsub (by decide)
  have hany : (safetyKeywords ++ futilityKeywords).any
      (fun w => containsSub (lowerStr (renderTrialData td)) w) = true := by
    rw [List.any_eq_true]
    exact ⟨"harm".data, by decide, hharm⟩
  unfold calculate_termination_penalty
  rw [hs]
  simp only [pyGet, hup, hany]
  norm_num

/-- Claim C9 witness: a terminated trial sponsored by
`Contoso Pharmaceuticals` receives −1.0. -/
theorem c9_pharma_triggers_safety_penalty_witness :
    calculate_termination_penalty c9Trial = -1.0 :=
  c9_pharma_triggers_safety_penalty c9Trial "TERMINATED".data rfl (by decide)
    (by decide)

/-- Claim C10: whenever the lower-cased eligibility text contains
`female`, the both-sexes condition holds (Python finds `male` inside
`female`), so the +0.15 bonus is included in the external-validity sum
even for a females-only trial. -/
theorem c10_female_implies_both_sexes :
    ∀ td : TrialData,
      containsSub (lowerStr (pyStr (pyGet td.eligibilityCriteria (.vStr []))))
        "female".data = true →
      bothSexesCond (lowerStr (pyStr (pyGet td.eligibilityCriteria (.vStr [])))) =
        true ∧
      calculate_external_validity td =
        round2 (externalValidityAge
            (lowerStr (pyStr (pyGet td.eligibilityCriteria (.vStr [])))) + 0.15 +
          externalValidityBiomarker
            (lowerStr (pyStr (pyGet td.eligibilityCriteria (.vStr []))))) := by
  intro td h
  have hmale : containsSub (lowerStr (pyStr (pyGet td.eligibilityCriteria
      (.vStr [])))) "male".data = true :=
    containsSub_of_infix h (by decide)
  have hcond : bothSexesCond (lowerStr (pyStr (pyGet td.eligibilityCriteria
      (.vStr [])))) = true := by
    unfold bothSexesCond
    rw [hmale, h]
    simp
  refine ⟨hcond, ?_⟩
  unfold calculate_external_validity
  dsimp only
  rw [hcond]
  simp

/-- Claim C10 witness: the females-only record gets the both-sexes bonus. -/
theorem c10_female_implies_both_sexes_witness :
    bothSexesCond (lowerStr (pyStr (pyGet c10Trial.eligibilityCriteria
      (.vStr [])))) = true ∧
    calculate_external_validity c10Trial =
      round2 (externalValidityAge (lowerStr (pyStr (pyGet
          c10Trial.eligibilityCriteria (.vStr [])))) + 0.15 +
        externalValidityBiomarker (lowerStr (pyStr (pyGet
          c10Trial.eligibilityCriteria (.vStr []))))) :=
  c10_female_implies_both_sexes c10Trial (by decide)

theorem commonPrefixCapped_le : ∀ (s1 s2 : Str) (k : Nat),
    commonPrefixCapped s1 s2 k ≤ k := by
  intro s1
  induction s1 with
  | nil => intro s2 k; cases s2 <;> cases k <;> simp [commonPrefixCapped]
  | cons a xs ih =>
    intro s2 k
    cases s2 with
    | nil => cases k <;> simp [commonPrefixCapped]
    | cons b ys =>
      cases k with
      | zero => simp [commonPrefixCapped]
      | succ n =>
        unfold commonPrefixCapped
        split
        · have := ih ys n
          omega
        · exact Nat.le_add_left 0 (n + 1)

theorem jw_transpositions_le (s1 s2 : Str) :
    ((jwMatchPairs s1 s2).filter
      (fun p => !(s2.get? p.2 == some p.1))).length / 2 ≤
      (jwMatchPairs s1 s2).length :=
  le_trans (Nat.div_le_self _ 2) (List.length_filter_le _ _)

theorem jwGE93_iff (s1 s2 : Str) :
    jwGE93 s1 s2 = true ↔ jaro_winkler_similarity s1 s2 ≥ 0.93 := by
  unfold jwGE93 jaro_winkler_similarity
  by_cases h0 : (s1.isEmpty || s2.isEmpty) = true
  · simp only [h0, if_true]
    norm_num
  · have h0' : (s1.isEmpty || s2.isEmpty) = false := by
      simpa using h0
    simp only [h0', Bool.false_eq_true, if_false]
    by_cases hp : (jwMatchPairs s1 s2).isEmpty = true
    · simp only [hp, if_true]
      norm_num
    · simp only [hp, Bool.false_eq_true, if_false]
      have hl1 : 0 < s1.length := by
        rcases Bool.or_eq_false_iff.1 h0' with ⟨ha, -⟩
        refine List.length_pos.2 (fun hnil => ?_)
        rw [hnil] at ha
        simp at ha
      have hl2 : 0 < s2.length := by
        rcases Bool.or_eq_false_iff.1 h0' with ⟨-, hb⟩
        refine List.length_pos.2 (fun hnil => ?_)
        rw [hnil] at hb
        simp at hb
      have hm : 0 < (jwMatchPairs s1 s2).length :=
        List.length_pos.2 (by simpa [List.isEmpty_iff] using hp)
      set L1 := s1.length with hL1
      set L2 := s2.length with hL2
      set M := (jwMatchPairs s1 s2).length with hM
      set TR := ((jwMatchPairs s1 s2).filter
        (fun p => !(s2.get? p.2 == some p.1))).length with hTR
      set P := commonPrefixCapped s1 s2 4 with hP
      have ht : TR / 2 ≤ M := jw_transpositions_le s1 s2
      have hp4 : P ≤ 4 := commonPrefixCapped_le s1 s2 4
      have hp10 : P ≤ 10 := le_trans hp4 (by norm_num)
      have hq1 : (0 : ℚ) < (L1 : ℚ) := by exact_mod_cast hl1
      have hq2 : (0 : ℚ) < (L2 : ℚ) := by exact_mod_cast hl2
      have hqm : (0 : ℚ) < (M : ℚ) := by exact_mod_cast hm
      rw [decide_eq_true_iff, ge_iff_le]
      have key : ((M : ℚ) / L1 + (M : ℚ) / L2 + ((M : ℚ) - (TR / 2 : ℕ)) / M) / 3 +
          0.1 * (P : ℚ) * (1 - ((M : ℚ) / L1 + (M : ℚ) / L2 +
            ((M : ℚ) - (TR / 2 : ℕ)) / M) / 3) =
          (((10 - P : ℕ) : ℚ) * ((M : ℚ) * M * L2 + (M : ℚ) * M * L1 +
              ((M : ℚ) - (TR / 2 : ℕ)) * (L1 * L2)) +
            3 * (P : ℚ) * (L1 * L2 * M)) / (30 * (L1 * L2 * M)) := by
        have hcast : ((10 - P : ℕ) : ℚ) = 10 - (P : ℚ) := by
          push_cast [Nat.cast_sub hp10]
          ring
        rw [hcast]
        field_simp
        ring
      rw [key]
      rw [show (0.93 : ℚ) = 93 / 100 by norm_num]
      rw [div_le_div_iff₀ (by norm_num) (by positivity)]
      have hMsub : ((M - TR / 2 : ℕ) : ℚ) = (M : ℚ) - ((TR / 2 : ℕ) : ℚ) :=
        Nat.cast_sub ht
      constructor
      · intro h
        calc (93 : ℚ) * (30 * ((L1 : ℚ) * L2 * M)) =
            ((93 * (30 * (L1 * L2 * M)) : ℕ) : ℚ) := by push_cast; ring
          _ ≤ ((100 * ((10 - P) * (M * M * L2 + M * M * L1 +
              (M - TR / 2) * (L1 * L2)) + 3 * P * (L1 * L2 * M)) : ℕ) : ℚ) := by
            exact_mod_cast h
          _ = _ := by push_cast [Nat.cast_sub hp10, hMsub]; ring
      · intro h
        have : ((93 * (30 * (L1 * L2 * M)) : ℕ) : ℚ) ≤
            ((100 * ((10 - P) * (M * M * L2 + M * M * L1 +
              (M - TR / 2) * (L1 * L2)) + 3 * P * (L1 * L2 * M)) : ℕ) : ℚ) := by
          calc ((93 * (30 * (L1 * L2 * M)) : ℕ) : ℚ) =
              (93 : ℚ) * (30 * ((L1 : ℚ) * L2 * M)) := by push_cast; ring
            _ ≤ _ := h
            _ = _ := by push_cast [Nat.cast_sub hp10, hMsub]; ring
        exact_mod_cast this

theorem scanMatch_sound (s2 : Str) (c : Char) :
    ∀ (used : List Nat) (js : List Nat) (j : Nat),
      scanMatch s2 used c js = some j → s2.get? j = some c := by
  intro used js
  induction js with
  | nil => intro j h; simp [scanMatch] at h
  | cons j' rest ih =>
    intro j h
    unfold scanMatch at h
    split at h
    · rename_i hcond
      rw [Bool.and_eq_true] at hcond
      rcases hcond with ⟨-, hcj⟩
      cases h
      exact beq_iff_eq.1 hcj
    · exact ih j h

theorem jwStep_sound (s2 : Str) (md : Nat) (init : List (Char × Nat))
    (ic : Nat × Char) (h : ∀ p ∈ init, s2.get? p.2 = some p.1) :
    ∀ p ∈ jwStep s2 md init ic, s2.get? p.2 = some p.1 := by
  intro p hp
  unfold jwStep at hp
  dsimp only at hp
  rcases hscan : scanMatch s2 (init.map Prod.snd) ic.2
      (List.range' (ic.1 - md) (min s2.length (ic.1 + md + 1) - (ic.1 - md))) with
    - | j
  · rw [hscan] at hp
    exact h p hp
  · rw [hscan] at hp
    rcases List.mem_append.1 hp with hmem | hmem
    · exact h p hmem
    · have : p = (ic.2, j) := by simpa using hmem
      rw [this]
      exact scanMatch_sound s2 ic.2 (init.map Prod.snd) _ j hscan

theorem jwMatchPairs_sound (s1 s2 : Str) :
    ∀ p ∈ jwMatchPairs s1 s2, s2.get? p.2 = some p.1 := by
  unfold jwMatchPairs
  generalize s1.enum = l
  have aux : ∀ (l : List (Nat × Char)) (init : List (Char × Nat)),
      (∀ p ∈ init, s2.get? p.2 = some p.1) →
      ∀ p ∈ l.foldl (jwStep s2 (jwMatchDistance s1 s2)) init,
        s2.get? p.2 = some p.1 := by
    intro l
    induction l with
    | nil => intro init h p hp; simpa using h p (by simpa using hp)
    | cons a t ih =>
      intro init h p hp
      rw [List.foldl_cons] at hp
      exact ih _ (jwStep_sound s2 _ init a h) p hp
  exact aux l [] (by simp)

theorem jw_transpositions_zero (s1 s2 : Str) :
    ((jwMatchPairs s1 s2).filter
      (fun p => !(s2.get? p.2 == some p.1))).length = 0 := by
  rw [List.length_eq_zero, List.filter_eq_nil_iff]
  intro p hp
  have h := jwMatchPairs_sound s1 s2 p hp
  rw [List.get?_eq_getElem?] at h
  simp [h]

/-- Claim C3 (amended): the similarity the source computes equals the
Jaro-Winkler formula with the transposition term identically zero — every
matched pair stores the index of an equal character, so the source's
transposition count never fires. -/
theorem c3_jw_equals_zero_transposition_formula :
    ∀ s1 s2 : Str,
      jaro_winkler_similarity s1 s2 = jaro_winkler_zero_transpositions s1 s2 := by
  intro s1 s2
  unfold jaro_winkler_similarity jaro_winkler_zero_transpositions
  by_cases h0 : (s1.isEmpty || s2.isEmpty) = true
  · simp [h0]
  · have h0' : (s1.isEmpty || s2.isEmpty) = false := by simpa using h0
    simp only [h0', Bool.false_eq_true, if_false]
    by_cases hp : (jwMatchPairs s1 s2).isEmpty = true
    · simp [hp]
    · simp only [hp, Bool.false_eq_true, if_false]
      have hm : 0 < (jwMatchPairs s1 s2).length :=
        List.length_pos.2 (fun hnil => by simp [hnil] at hp)
      have hqm : ((jwMatchPairs s1 s2).length : ℚ) ≠ 0 := by
        exact_mod_cast Nat.pos_iff_ne_zero.1 hm
      rw [jw_transpositions_zero s1 s2]
      norm_num [div_self hqm]

/-- Claim C3 counterexample: on `martha`/`marhta` the source computes
similarity 1 (its transposition count is always zero), while the standard
Jaro-Winkler similarity is 173/180 ≈ 0.961. -/
theorem c3_counterexample_martha :
    jaro_winkler_similarity "martha".data "marhta".data = 1 ∧
    standard_jaro_winkler "martha".data "marhta".data = 173 / 180 ∧
    jaro_winkler_similarity "martha".data "marhta".data ≠
      standard_jaro_winkler "martha".data "marhta".data := by
  have hguard : ("martha".data.isEmpty || "marhta".data.isEmpty) = false := by
    decide
  have hne : (jwMatchPairs "martha".data "marhta".data).isEmpty = false := by
    decide
  have hlen : (jwMatchPairs "martha".data "marhta".data).length = 6 := by decide
  have hl1 : ("martha".data).length = 6 := by decide
  have hl2 : ("marhta".data).length = 6 := by decide
  have hpfx : commonPrefixCapped "martha".data "marhta".data 4 = 3 := by decide
  have htr : ((jwMatchPairs "martha".data "marhta".data).filter
      (fun p => !("marhta".data.get? p.2 == some p.1))).length = 0 :=
    jw_transpositions_zero _ _
  have hhalf : ((((jwMatchPairs "martha".data "marhta".data).map Prod.fst).zip
      ((sortNat ((jwMatchPairs "martha".data "marhta".data).map Prod.snd)).filterMap
        (fun j => "marhta".data.get? j))).filter
      (fun p => !(p.1 == p.2))).length = 2 := by decide
  have h1 : jaro_winkler_similarity "martha".data "marhta".data = 1 := by
    unfold jaro_winkler_similarity
    simp only [hguard, Bool.false_eq_true, if_false, hne, hlen, hl1, hl2, htr, hpfx]
    norm_num
  have h2 : standard_jaro_winkler "martha".data "marhta".data = 173 / 180 := by
    unfold standard_jaro_winkler
    simp only [hguard, Bool.false_eq_true, if_false, hne, hlen, hl1, hl2, hhalf, hpfx]
    norm_num
  refine ⟨h1, h2, ?_⟩
  rw [h1, h2]
  norm_num

theorem fuzzyFold_none (name : Str)
    (h : ∀ kv ∈ canonical_aliases, jwGE93 name kv.1 = false) :
    canonical_aliases.foldl (fuzzyStep name) ((none : Option Str), (0 : ℚ)) =
      (none, 0) := by
  have aux : ∀ l : List (Str × Str), (∀ kv ∈ l, jwGE93 name kv.1 = false) →
      l.foldl (fuzzyStep name) ((none : Option Str), (0 : ℚ)) = (none, 0) := by
    intro l
    induction l with
    | nil => intro _; simp
    | cons kv t ih =>
      intro hl
      rw [List.foldl_cons]
      have hkv : jwGE93 name kv.1 = false := hl kv (List.mem_cons_self _ _)
      have hstep : fuzzyStep name ((none : Option Str), (0 : ℚ)) kv = (none, 0) := by
        unfold fuzzyStep
        dsimp only
        rw [if_neg]
        rintro ⟨hge, -⟩
        exact absurd ((jwGE93_iff name kv.1).2 hge) (by simp [hkv])
      rw [hstep]
      exact ih (fun kv' hm => hl kv' (List.mem_cons_of_mem _ hm))
  exact aux canonical_aliases h

theorem fuzzy_match_name_title (name : Str) (hne : name.isEmpty = false)
    (hexact : canonical_aliases.find? (fun kv => name == kv.1) = none)
    (h : ∀ kv ∈ canonical_aliases, jwGE93 name kv.1 = false) :
    fuzzy_match_name name = titleStr name := by
  unfold fuzzy_match_name
  simp only [hne, Bool.false_eq_true, if_false, hexact]
  rw [fuzzyFold_none name h]

theorem normalize_entity_name_title (v : Str) (hne : v.isEmpty = false)
    (h1 : aliasLookup (stripStr (lowerStr v)) = none)
    (h2 : aliasLookup (stripStr v) = none)
    (hexact : canonical_aliases.find?
      (fun kv => stripStr (lowerStr v) == kv.1) = none)
    (hstrip : (stripStr (lowerStr v)).isEmpty = false)
    (h : ∀ kv ∈ canonical_aliases, jwGE93 (stripStr (lowerStr v)) kv.1 = false) :
    normalize_entity_name (.vStr v) = titleStr (stripStr (lowerStr v)) := by
  unfold normalize_entity_name
  simp only [pyIsNa, pyFalsy, pyStr, hne, Bool.false_eq_true, Bool.or_self,
    if_false, h1, h2]
  exact fuzzy_match_name_title _ hstrip hexact h

/-- Claim C7 counterexample: `Bayer AG` is a canonical display name of the
alias table (the value of key `bayer`), but `normalize_entity_name` maps
it to `Bayer Ag` — its lowercase is not an alias key, no alias reaches the
0.93 fuzzy threshold, and the title-case fallback downcases `AG`.  So
canonical names are not fixed points of normalization. -/
theorem c7_counterexample_bayer :
    aliasLookup "bayer".data = some "Bayer AG".data ∧
    normalize_entity_name (.vStr "Bayer AG".data) = "Bayer Ag".data ∧
    "Bayer AG".data ≠ "Bayer Ag".data := by
  refine ⟨by decide, ?_, by decide⟩
  have h := normalize_entity_name_title "Bayer AG".data (by decide) (by decide)
    (by decide) (by decide) (by decide) (by decide)
  rw [h]
  decide

/-- Claim C7 (amended): a canonical display name whose lower-cased,
trimmed form is itself an alias key mapping back to that name is a fixed
point of `normalize_entity_name`.  (Canonical values without such a
self-alias, like `Bayer AG`, need not be fixed points.) -/
theorem c7_self_keyed_canonical_fixed_point :
    ∀ v : Str, aliasLookup (stripStr (lowerStr v)) = some v →
      normalize_entity_name (.vStr v) = v := by
  intro v hv
  by_cases hne : v.isEmpty = true
  · have hnil : v = [] := by simpa [List.isEmpty_iff] using hne
    subst hnil
    decide
  · have hfalsy : v.isEmpty = false := by simpa using hne
    unfold normalize_entity_name
    simp only [pyIsNa, pyFalsy, pyStr, hfalsy, Bool.false_eq_true, Bool.or_self,
      if_false, hv]

/-- Claim C7 witness: `Medtronic` is self-keyed and normalizes to itself. -/
theorem c7_self_keyed_canonical_fixed_point_witness :
    aliasLookup (stripStr (lowerStr "Medtronic".data)) = some "Medtronic".data ∧
    normalize_entity_name (.vStr "Medtronic".data) = "Medtronic".data :=
  ⟨by decide, c7_self_keyed_canonical_fixed_point "Medtronic".data (by decide)⟩

/-- Claim C8 counterexample: for a present trial whose ClinicalTrials.gov
lookup fails while the PubMed lookup returns two high-impact journal
names, the failure is logged — yet the high-impact publication bonus is
0.5, not the 0.0 the claim asserts a lookup failure forces. -/
theorem c8_counterexample_partial_failure :
    ((calculate_trial_score [c8Trial] "NCT80000001".data
        (.error "timeout".data) (.ok ["nature".data, "science".data])
        "2025-01-01T00:00:00".data).1.map
          TrialScore.high_impact_publication_bonus) = some 0.5 ∧
    (calculate_trial_score [c8Trial] "NCT80000001".data
        (.error "timeout".data) (.ok ["nature".data, "science".data])
        "2025-01-01T00:00:00".data).2 =
      [⟨"NCT80000001".data, "clinicaltrials_publications".data, "timeout".data,
        "2025-01-01T00:00:00".data⟩] ∧
    (0.5 : ℚ) ≠ 0 := by
  have hfind : get_trial_data [c8Trial] "NCT80000001".data = some c8Trial := by
    decide
  have hbonus : (calculate_high_impact_publication_bonus "NCT80000001".data
      (.error "timeout".data) (.ok ["nature".data, "science".data])
      "2025-01-01T00:00:00".data).1 = 0.5 := by
    unfold calculate_high_impact_publication_bonus
    dsimp only [fetch_clinicaltrials_publications, fetch_pubmed_publications]
    have hc : ((([] : List Str) ++ ["nature".data, "science".data]).filter
        (fun pub => match parse_publication_string pub with
          | some j => validate_journal_impact j
          | none => false)).length = 2 := by decide
    rw [hc]
    norm_num
  refine ⟨?_, ?_, by norm_num⟩
  · unfold calculate_trial_score
    rw [hfind]
    simp only [Option.map_some']
    refine congrArg some ?_
    show (calculate_high_impact_publication_bonus "NCT80000001".data
      (.error "timeout".data) (.ok ["nature".data, "science".data])
      "2025-01-01T00:00:00".data).1 = 0.5
    exact hbonus
  · unfold calculate_trial_score
    rw [hfind]
    rfl

/-- Claim C8 (amended): `calculate_trial_score` returns `none` exactly
when the identifier is absent from the dataset and otherwise always
returns a score; a failed lookup appends a log entry carrying the
identifier, the provider, the error text and the timestamp, and
contributes no publications; when **both** lookups fail the publication
bonus is 0.0; and every score component other than the publication bonus
is independent of the lookup outcomes. -/
theorem c8_failure_semantics_amended :
    (∀ (db : List TrialData) (nctId : Str) (ct pm : FetchOutcome) (now : Str),
      ((calculate_trial_score db nctId ct pm now).1 = none ↔
        ∀ td ∈ db, td.nctId ≠ .vStr nctId)) ∧
    (∀ (db : List TrialData) (nctId : Str) (ct pm : FetchOutcome) (now : Str)
        (td : TrialData), get_trial_data db nctId = some td →
      (calculate_trial_score db nctId ct pm now).1 =
        some (mkTrialScore td nctId ct pm now)) ∧
    (∀ nctId e1 e2 now : Str,
      calculate_high_impact_publication_bonus nctId (.error e1) (.error e2) now =
        (0.0, [⟨nctId, "clinicaltrials_publications".data, e1, now⟩,
               ⟨nctId, "pubmed_publications".data, e2, now⟩])) ∧
    (∀ (nctId e1 now : Str) (pubs : List Str),
      (calculate_high_impact_publication_bonus nctId (.error e1) (.ok pubs) now).2 =
        [⟨nctId, "clinicaltrials_publications".data, e1, now⟩]) ∧
    (∀ (nctId e2 now : Str) (pubs : List Str),
      (calculate_high_impact_publication_bonus nctId (.ok pubs) (.error e2) now).2 =
        [⟨nctId, "pubmed_publications".data, e2, now⟩]) ∧
    (∀ (td : TrialData) (nctId : Str) (ct pm ct' pm' : FetchOutcome)
        (now now' : Str),
      (mkTrialScore td nctId ct pm now).outcome_evidence =
        (mkTrialScore td nctId ct' pm' now').outcome_evidence ∧
      (mkTrialScore td nctId ct pm now).phase_prior =
        (mkTrialScore td nctId ct' pm' now').phase_prior ∧
      (mkTrialScore td nctId ct pm now).sponsor_track_record =
        (mkTrialScore td nctId ct' pm' now').sponsor_track_record ∧
      (mkTrialScore td nctId ct pm now).study_design_integrity =
        (mkTrialScore td nctId ct' pm' now').study_design_integrity ∧
      (mkTrialScore td nctId ct pm now).enrollment_fulfillment =
        (mkTrialScore td nctId ct' pm' now').enrollment_fulfillment ∧
      (mkTrialScore td nctId ct pm now).external_validity =
        (mkTrialScore td nctId ct' pm' now').external_validity ∧
      (mkTrialScore td nctId ct pm now).regulatory_acceleration_bonus =
        (mkTrialScore td nctId ct' pm' now').regulatory_acceleration_bonus ∧
      (mkTrialScore td nctId ct pm now).data_sharing_bonus =
        (mkTrialScore td nctId ct' pm' now').data_sharing_bonus ∧
      (mkTrialScore td nctId ct pm now).termination_penalty =
        (mkTrialScore td nctId ct' pm' now').termination_penalty ∧
      (mkTrialScore td nctId ct pm now).base_score =
        (mkTrialScore td nctId ct' pm' now').base_score) := by
  refine ⟨?_, ?_, fun _ _ _ _ => rfl, fun _ _ _ _ => rfl, fun _ _ _ _ => rfl,
    fun _ _ _ _ _ _ _ _ =>
      ⟨rfl, rfl, rfl, rfl, rfl, rfl, rfl, rfl, rfl, rfl⟩⟩
  · intro db nctId ct pm now
    unfold calculate_trial_score
    cases hfind : get_trial_data db nctId with
    | none =>
      simp only [hfind]
      unfold get_trial_data at hfind
      rw [List.find?_eq_none] at hfind
      simp only [true_iff]
      intro td htd heq
      exact hfind td htd (by simp [heq])
    | some td =>
      simp only [hfind]
      unfold get_trial_data at hfind
      have hmem := List.mem_of_find?_eq_some hfind
      have hbeq := List.find?_some hfind
      simp only [reduceCtorEq, false_iff, not_forall]
      exact ⟨td, hmem, by simpa using beq_iff_eq.1 hbeq⟩
  · intro db nctId ct pm now td h
    unfold calculate_trial_score
    rw [h]

/-- Claim C8 witness: the amended failure semantics at concrete inputs —
a present trial with both lookups failing scores with bonus 0, and an
empty dataset yields `none`. -/
theorem c8_failure_semantics_amended_witness :
    (calculate_trial_score [c8Trial] "NCT80000001".data (.error "a".data)
        (.error "b".data) "t".data).1 =
      some (mkTrialScore c8Trial "NCT80000001".data (.error "a".data)
        (.error "b".data) "t".data) ∧
    calculate_high_impact_publication_bonus "NCT80000001".data
        (.error "a".data) (.error "b".data) "t".data =
      (0.0, [⟨"NCT80000001".data, "clinicaltrials_publications".data, "a".data,
        "t".data⟩, ⟨"NCT80000001".data, "pubmed_publications".data, "b".data,
        "t".data⟩]) :=
  ⟨c8_failure_semantics_amended.2.1 [c8Trial] "NCT80000001".data
      (.error "a".data) (.error "b".data) "t".data c8Trial (by decide),
   c8_failure_semantics_amended.2.2.1 "NCT80000001".data "a".data "b".data
      "t".data⟩

theorem updateFirstSeen_source (d : ℤ) (e : EdgeData) :
    (updateFirstSeen d e).source = e.source := by
  unfold updateFirstSeen
  (repeat' split) <;> rfl

theorem updateFirstSeen_target (d : ℤ) (e : EdgeData) :
    (updateFirstSeen d e).target = e.target := by
  unfold updateFirstSeen
  (repeat' split) <;> rfl

theorem updateFirstSeen_nctIds (d : ℤ) (e : EdgeData) :
    (updateFirstSeen d e).nctIds = e.nctIds := by
  unfold updateFirstSeen
  (repeat' split) <;> rfl

theorem updateLastSeen_source (d : ℤ) (e : EdgeData) :
    (updateLastSeen d e).source = e.source := by
  unfold updateLastSeen
  (repeat' split) <;> rfl

theorem updateLastSeen_target (d : ℤ) (e : EdgeData) :
    (updateLastSeen d e).target = e.target := by
  unfold updateLastSeen
  (repeat' split) <;> rfl

theorem updateLastSeen_nctIds (d : ℤ) (e : EdgeData) :
    (updateLastSeen d e).nctIds = e.nctIds := by
  unfold updateLastSeen
  (repeat' split) <;> rfl

theorem updateEdgeMeta_source (t : NetTrial) (e : EdgeData) :
    (updateEdgeMeta t e).source = e.source := by
  unfold updateEdgeMeta
  dsimp only
  (repeat' split) <;> simp [updateLastSeen_source, updateFirstSeen_source]

theorem updateEdgeMeta_target (t : NetTrial) (e : EdgeData) :
    (updateEdgeMeta t e).target = e.target := by
  unfold updateEdgeMeta
  dsimp only
  (repeat' split) <;> simp [updateLastSeen_target, updateFirstSeen_target]

theorem updateEdgeMeta_nctIds (t : NetTrial) (e : EdgeData) :
    (updateEdgeMeta t e).nctIds = e.nctIds ++ [t.nctId] := by
  unfold updateEdgeMeta
  dsimp only
  (repeat' split) <;> simp [updateLastSeen_nctIds, updateFirstSeen_nctIds]

theorem updateFirstSeen_firstSeen (d : ℤ) (e : EdgeData) :
    (updateFirstSeen d e).firstSeen =
      match e.firstSeen with
      | none => some d
      | some f0 => if d < f0 then some d else some f0 := by
  unfold updateFirstSeen
  (repeat' split) <;> simp_all

theorem updateFirstSeen_lastSeen (d : ℤ) (e : EdgeData) :
    (updateFirstSeen d e).lastSeen = e.lastSeen := by
  unfold updateFirstSeen
  (repeat' split) <;> rfl

theorem updateLastSeen_lastSeen (d : ℤ) (e : EdgeData) :
    (updateLastSeen d e).lastSeen =
      match e.lastSeen with
      | none => some d
      | some l0 => if d > l0 then some d else some l0 := by
  unfold updateLastSeen
  (repeat' split) <;> simp_all

theorem updateLastSeen_firstSeen (d : ℤ) (e : EdgeData) :
    (updateLastSeen d e).firstSeen = e.firstSeen := by
  unfold updateLastSeen
  (repeat' split) <;> rfl

theorem updateEdgeMeta_firstSeen (t : NetTrial) (e : EdgeData) :
    (updateEdgeMeta t e).firstSeen =
      match t.startDate, e.firstSeen with
      | none, fs => fs
      | some d, none => some d
      | some d, some f0 => if d < f0 then some d else some f0 := by
  unfold updateEdgeMeta
  dsimp only
  (repeat' split) <;>
    simp_all [updateLastSeen_firstSeen, updateFirstSeen_firstSeen]

theorem updateEdgeMeta_lastSeen (t : NetTrial) (e : EdgeData) :
    (updateEdgeMeta t e).lastSeen =
      match t.startDate, e.lastSeen with
      | none, ls => ls
      | some d, none => some d
      | some d, some l0 => if d > l0 then some d else some l0 := by
  unfold updateEdgeMeta
  dsimp only
  (repeat' split) <;>
    simp_all [updateLastSeen_lastSeen, updateFirstSeen_lastSeen]

/-- The per-edge invariant of the graph builder: no self-loop, at least
one backing trial id, and ordered seen-dates. -/
def EdgeInv (e : EdgeData) : Prop :=
  e.source ≠ e.target ∧ e.nctIds ≠ [] ∧
    ∀ f l, e.firstSeen = some f → e.lastSeen = some l → f ≤ l

theorem updateEdgeMeta_dates (t : NetTrial) (e : EdgeData)
    (h : ∀ f l, e.firstSeen = some f → e.lastSeen = some l → f ≤ l) :
    ∀ f l, (updateEdgeMeta t e).firstSeen = some f →
      (updateEdgeMeta t e).lastSeen = some l → f ≤ l := by
  intro f l hf hl
  rw [updateEdgeMeta_firstSeen] at hf
  rw [updateEdgeMeta_lastSeen] at hl
  rcases ht : t.startDate with - | d <;> rw [ht] at hf hl <;>
    (try dsimp only at hf hl)
  · exact h f l hf hl
  · rcases hfs : e.firstSeen with - | f0 <;> rw [hfs] at hf <;>
      rcases hls : e.lastSeen with - | l0 <;> rw [hls] at hl <;>
      (try dsimp only at hf hl)
    · cases hf
      cases hl
      exact le_refl _
    · cases hf
      split_ifs at hl <;> cases hl <;> omega
    · cases hl
      split_ifs at hf <;> cases hf <;> omega
    · have hfl := h f0 l0 hfs hls
      split_ifs at hf hl <;> cases hf <;> cases hl <;> omega

theorem updateEdgeMeta_inv (t : NetTrial) (e : EdgeData)
    (hsrc : e.source ≠ e.target)
    (hdates : ∀ f l, e.firstSeen = some f → e.lastSeen = some l → f ≤ l) :
    EdgeInv (updateEdgeMeta t e) := by
  refine ⟨?_, ?_, updateEdgeMeta_dates t e hdates⟩
  · rw [updateEdgeMeta_source, updateEdgeMeta_target]
    exact hsrc
  · rw [updateEdgeMeta_nctIds]
    simp

theorem foldl_preserves {α β : Type} (f : β → α → β) (P : β → Prop) :
    ∀ (l : List α) (b : β), P b → (∀ b' a, P b' → P (f b' a)) →
      P (l.foldl f b) := by
  intro l
  induction l with
  | nil => intro b hb _; simpa using hb
  | cons a t ih =>
    intro b hb hstep
    rw [List.foldl_cons]
    exact ih (f b a) (hstep b a hb) hstep

theorem processCollaborator_inv (t : NetTrial) (lead : Str)
    (st : List NodeData × List EdgeData) (collaborator : Str)
    (h : ∀ e ∈ st.2, EdgeInv e) :
    ∀ e ∈ (processCollaborator t lead st collaborator).2, EdgeInv e := by
  unfold processCollaborator
  split
  · rename_i hguard
    have hne : collaborator ≠ lead := by
      rw [Bool.and_eq_true] at hguard
      exact of_decide_eq_true hguard.2
    dsimp only
    split
    · exact h
    · rename_i hlead
      intro e' he'
      dsimp only at he'
      set edgeId := lead ++ "__".data ++ collaborator with hid
      by_cases hexists : st.2.any (fun e => e.id == edgeId) = true
      · rw [if_pos hexists] at he'
        rcases List.mem_map.1 he' with ⟨x, hx, hfx⟩
        obtain ⟨hx1, hx2, hx3⟩ := h x hx
        by_cases hxid : (x.id == edgeId) = true
        · rw [if_pos hxid] at hfx
          rw [← hfx]
          exact updateEdgeMeta_inv t x hx1 hx3
        · rw [if_neg hxid] at hfx
          rw [← hfx]
          exact ⟨hx1, hx2, hx3⟩
      · rw [if_neg hexists] at he'
        rcases List.mem_map.1 he' with ⟨x, hx, hfx⟩
        rcases List.mem_append.1 hx with hxold | hxnew
        · obtain ⟨hx1, hx2, hx3⟩ := h x hxold
          by_cases hxid : (x.id == edgeId) = true
          · rw [if_pos hxid] at hfx
            rw [← hfx]
            exact updateEdgeMeta_inv t x hx1 hx3
          · rw [if_neg hxid] at hfx
            rw [← hfx]
            exact ⟨hx1, hx2, hx3⟩
        · have hxeq := List.mem_singleton.1 hxnew
          rw [hxeq] at hfx
          rw [if_pos (by simp)] at hfx
          rw [← hfx]
          refine updateEdgeMeta_inv t _ (fun hc => hne (by simpa using hc.symm)) ?_
          intro f l hf hl
          dsimp only at hf hl
          rw [hf] at hl
          cases hl
          exact le_refl _
  · exact h

theorem buildGraphData_inv (trials : List NetTrial) :
    ∀ e ∈ (buildGraphData trials).2, EdgeInv e := by
  unfold buildGraphData
  refine foldl_preserves processTrial (fun st => ∀ e ∈ st.2, EdgeInv e) trials
    ([], []) (by simp) ?_
  intro st t hst
  unfold processTrial
  dsimp only
  refine foldl_preserves _
    (fun st' : List NodeData × List EdgeData => ∀ e ∈ st'.2, EdgeInv e) _ _ hst ?_
  intro st' c hst'
  exact processCollaborator_inv t _ st' c hst'

theorem round2R_mono {x y : ℝ} (h : x ≤ y) : round2R x ≤ round2R y := by
  have h2 : round (100 * x) ≤ round (100 * y) := by
    rw [round_eq, round_eq]
    exact Int.floor_le_floor (by linarith)
  have h3 : ((round (100 * x) : ℤ) : ℝ) ≤ ((round (100 * y) : ℤ) : ℝ) := by
    exact_mod_cast h2
  unfold round2R
  linarith

theorem foldl_min_le_init {α : Type} [LinearOrder α] :
    ∀ (l : List α) (a : α), l.foldl min a ≤ a := by
  intro l
  induction l with
  | nil => intro a; simp
  | cons b t ih =>
    intro a
    rw [List.foldl_cons]
    exact le_trans (ih (min a b)) (min_le_left a b)

theorem foldl_min_le {α : Type} [LinearOrder α] :
    ∀ (l : List α) (a x : α), x ∈ a :: l → l.foldl min a ≤ x := by
  intro l
  induction l with
  | nil =>
    intro a x hx
    rw [List.mem_singleton] at hx
    simp [hx]
  | cons b t ih =>
    intro a x hx
    rw [List.foldl_cons]
    rcases List.mem_cons.1 hx with rfl | hx'
    · exact le_trans (foldl_min_le_init t (min x b)) (min_le_left x b)
    · rcases List.mem_cons.1 hx' with rfl | hx''
      · exact le_trans (foldl_min_le_init t (min a x)) (min_le_right a x)
      · exact ih (min a b) x (List.mem_cons_of_mem _ hx'')

theorem init_le_foldl_max {α : Type} [LinearOrder α] :
    ∀ (l : List α) (a : α), a ≤ l.foldl max a := by
  intro l
  induction l with
  | nil => intro a; simp
  | cons b t ih =>
    intro a
    rw [List.foldl_cons]
    exact le_trans (le_max_left a b) (ih (max a b))

theorem le_foldl_max {α : Type} [LinearOrder α] :
    ∀ (l : List α) (a x : α), x ∈ a :: l → x ≤ l.foldl max a := by
  intro l
  induction l with
  | nil =>
    intro a x hx
    rw [List.mem_singleton] at hx
    simp [hx]
  | cons b t ih =>
    intro a x hx
    rw [List.foldl_cons]
    rcases List.mem_cons.1 hx with rfl | hx'
    · exact le_trans (le_max_left x b) (init_le_foldl_max t (max x b))
    · rcases List.mem_cons.1 hx' with rfl | hx''
      · exact le_trans (le_max_right a x) (init_le_foldl_max t (max a x))
      · exact ih (max a b) x (List.mem_cons_of_mem _ hx'')

theorem foldl_min_const {α : Type} [LinearOrder α] :
    ∀ (l : List α) (a : α), (∀ x ∈ l, x = a) → l.foldl min a = a := by
  intro l
  induction l with
  | nil => intro a _; simp
  | cons b t ih =>
    intro a h
    rw [List.foldl_cons, h b (List.mem_cons_self _ _), min_self]
    exact ih a (fun x hx => h x (List.mem_cons_of_mem _ hx))

theorem foldl_max_const {α : Type} [LinearOrder α] :
    ∀ (l : List α) (a : α), (∀ x ∈ l, x = a) → l.foldl max a = a := by
  intro l
  induction l with
  | nil => intro a _; simp
  | cons b t ih =>
    intro a h
    rw [List.foldl_cons, h b (List.mem_cons_self _ _), max_self]
    exact ih a (fun x hx => h x (List.mem_cons_of_mem _ hx))

theorem calculate_edge_weights_mem (now : ℤ) (mode : Str)
    (edges : List EdgeData) :
    ∀ e' ∈ calculate_edge_weights now mode edges,
      (∃ e ∈ edges, e'.toEdgeData = e) ∧ 0.5 ≤ e'.weight ∧ e'.weight ≤ 10 := by
  intro e' he'
  unfold calculate_edge_weights at he'
  rcases hmap : edges.map (rawEdgeWeight now mode) with - | ⟨w, ws⟩ <;>
    rw [hmap] at he' <;> dsimp only at he'
  · simp at he'
  · split at he'
    · rename_i hlt
      rcases List.mem_map.1 he' with ⟨e, he, rfl⟩
      refine ⟨⟨e, he, rfl⟩, le_max_left _ _, ?_⟩
      have hmemw : rawEdgeWeight now mode e ∈ w :: ws := by
        rw [← hmap]
        exact List.mem_map_of_mem _ he
      have hminle : ws.foldl min w ≤ rawEdgeWeight now mode e :=
        foldl_min_le ws w _ hmemw
      have hlemax : rawEdgeWeight now mode e ≤ ws.foldl max w :=
        le_foldl_max ws w _ hmemw
      have hpos : (0 : ℝ) < ws.foldl max w - ws.foldl min w := sub_pos.2 hlt
      have hscaled : (rawEdgeWeight now mode e - ws.foldl min w) /
          (ws.foldl max w - ws.foldl min w) * 10 ≤ 10 := by
        have hdiv : (rawEdgeWeight now mode e - ws.foldl min w) /
            (ws.foldl max w - ws.foldl min w) ≤ 1 :=
          (div_le_one hpos).2 (by linarith)
        nlinarith
      refine max_le (by norm_num) ?_
      calc round2R _ ≤ round2R 10 := round2R_mono hscaled
        _ = 10 := by norm_num [round2R, round_eq]
    · rcases List.mem_map.1 he' with ⟨e, he, rfl⟩
      exact ⟨⟨e, he, rfl⟩, by norm_num, by norm_num⟩

theorem calculate_edge_weights_equal (now : ℤ) (mode : Str)
    (edges : List EdgeData)
    (heq : ∀ w₁ ∈ edges.map (rawEdgeWeight now mode),
      ∀ w₂ ∈ edges.map (rawEdgeWeight now mode), w₁ = w₂) :
    ∀ e' ∈ calculate_edge_weights now mode edges, e'.weight = 5.0 := by
  intro e' he'
  unfold calculate_edge_weights at he'
  rcases hmap : edges.map (rawEdgeWeight now mode) with - | ⟨w, ws⟩ <;>
    rw [hmap] at he' <;> dsimp only at he'
  · simp at he'
  · rw [hmap] at heq
    have hall : ∀ x ∈ ws, x = w := fun x hx =>
      heq x (List.mem_cons_of_mem _ hx) w (List.mem_cons_self _ _)
    rw [foldl_min_const ws w hall, foldl_max_const ws w hall] at he'
    rw [if_neg (lt_irrefl w)] at he'
    rcases List.mem_map.1 he' with ⟨e, -, rfl⟩
    rfl

/-- Claim C6: for every trial collection, filters, weighting mode and
top-K, every edge `build_network_graph` returns has distinct source and
target, at least one backing trial id, `firstSeen ≤ lastSeen` whenever
both are set, and a weight in [0.5, 10] (hence never negative); and when
all raw weights are equal, every edge's weight is exactly 5.0. -/
theorem c6_build_network_graph_edge_invariants :
    ∀ (trials : List NetTrial) (filters : Option NetFilters) (mode : Str)
      (topK : Option Nat) (now : ℤ),
      (∀ e ∈ (build_network_graph trials filters mode topK now).edges,
        e.source ≠ e.target ∧ e.nctIds ≠ [] ∧
        (∀ f l, e.firstSeen = some f → e.lastSeen = some l → f ≤ l) ∧
        0.5 ≤ e.weight ∧ e.weight ≤ 10) ∧
      ((∀ w₁ ∈ graph_raw_weights trials filters mode now,
          ∀ w₂ ∈ graph_raw_weights trials filters mode now, w₁ = w₂) →
        ∀ e ∈ (build_network_graph trials filters mode topK now).edges,
          e.weight = 5.0) := by
  intro trials filters mode topK now
  have hmem_all : ∀ e ∈ (build_network_graph trials filters mode topK now).edges,
      e ∈ calculate_edge_weights now mode
        (buildGraphData (match filters with
          | some f => apply_filters now f trials
          | none => trials)).2 := by
    intro e he
    unfold build_network_graph at he
    dsimp only at he
    rcases topK with - | k
    · exact he
    · dsimp only at he
      split at he
      · exact (List.mem_filter.1 he).1
      · exact he
  constructor
  · intro e he
    have hcew := hmem_all e he
    obtain ⟨⟨ed, hed, hproj⟩, hw1, hw2⟩ :=
      calculate_edge_weights_mem now mode _ e hcew
    obtain ⟨h1, h2, h3⟩ := buildGraphData_inv _ ed hed
    rw [← hproj] at h1 h2 h3
    exact ⟨h1, h2, h3, hw1, hw2⟩
  · intro heq e he
    exact calculate_edge_weights_equal now mode _ heq e (hmem_all e he)

theorem normalize_Alpha :
    normalize_entity_name (.vStr "Alpha".data) = "Alpha".data := by
  have h := normalize_entity_name_title "Alpha".data (by decide) (by decide)
    (by decide) (by decide) (by decide) (by decide)
  rw [h]
  decide

theorem normalize_Beta :
    normalize_entity_name (.vStr "Beta".data) = "Beta".data := by
  have h := normalize_entity_name_title "Beta".data (by decide) (by decide)
    (by decide) (by decide) (by decide) (by decide)
  rw [h]
  decide

theorem normalize_Gamma :
    normalize_entity_name (.vStr "Gamma".data) = "Gamma".data := by
  have h := normalize_entity_name_title "Gamma".data (by decide) (by decide)
    (by decide) (by decide) (by decide) (by decide)
  rw [h]
  decide

theorem normalize_Delta :
    normalize_entity_name (.vStr "Delta".data) = "Delta".data := by
  have h := normalize_entity_name_title "Delta".data (by decide) (by decide)
    (by decide) (by decide) (by decide) (by decide)
  rw [h]
  decide

theorem parse_collaborators_single (v n : Str) (hne : v.isEmpty = false)
    (hsplit : splitOnAny [',', ';', '|'] v [] = [v]) (hstrip : stripStr v = v)
    (hn : normalize_entity_name (.vStr v) = n) (hnne : n.isEmpty = false) :
    parse_collaborators (.vStr v) = [n] := by
  unfold parse_collaborators
  simp only [pyIsNa, pyFalsy, pyStr, hne, Bool.false_eq_true, Bool.or_self,
    if_false, hsplit, List.foldl_cons, List.foldl_nil, hstrip, hn,
    Bool.not_false, if_true, List.nil_append]
  simp [List.eraseDups, List.eraseDups.loop, hnne]

theorem processTrial_eq_with (st : List NodeData × List EdgeData) (t : NetTrial) :
    processTrial st t = processTrialWith (normalize_entity_name t.leadSponsor)
      (parse_collaborators t.collaborators) st t := rfl

theorem processTrial_eval (st : List NodeData × List EdgeData) (t : NetTrial)
    {lead : Str} {collabs : List Str}
    (hl : normalize_entity_name t.leadSponsor = lead)
    (hc : parse_collaborators t.collaborators = collabs) :
    processTrial st t = processTrialWith lead collabs st t := by
  rw [processTrial_eq_with, hl, hc]

theorem c6_buildGraphData :
    (buildGraphData [c6Trial]).2 = [c6ExampleEdgeData] := by
  have hpc : parse_collaborators (PyVal.vStr "Beta".data) = ["Beta".data] :=
    parse_collaborators_single "Beta".data "Beta".data (by decide) (by decide)
      (by decide) normalize_Beta (by decide)
  have e1 : processTrial ([], []) c6Trial =
      processTrialWith "Alpha".data ["Beta".data] ([], []) c6Trial :=
    processTrial_eval ([], []) c6Trial normalize_Alpha hpc
  unfold buildGraphData
  rw [List.foldl_cons, List.foldl_nil, e1]
  decide

theorem c6_example_edges :
    (build_network_graph [c6Trial] none "established_network".data none 0).edges =
      [c6ExampleEdge] := by
  unfold build_network_graph
  dsimp only
  rw [c6_buildGraphData]
  unfold calculate_edge_weights
  simp only [List.map_cons, List.map_nil, List.foldl_nil]
  rw [if_neg (lt_irrefl _)]
  rfl

/-- Claim C6 witness: the example graph's single edge satisfies the
invariants, and — all raw weights being equal — its weight is exactly
5.0. -/
theorem c6_build_network_graph_edge_invariants_witness :
    c6ExampleEdge.source ≠ c6ExampleEdge.target ∧
    c6ExampleEdge.nctIds ≠ [] ∧
    0.5 ≤ c6ExampleEdge.weight ∧ c6ExampleEdge.weight ≤ 10 ∧
    c6ExampleEdge.weight = 5.0 := by
  obtain ⟨hall, heqc⟩ := c6_build_network_graph_edge_invariants [c6Trial] none
    "established_network".data none 0
  have hmem : c6ExampleEdge ∈ (build_network_graph [c6Trial] none
      "established_network".data none 0).edges := by
    rw [c6_example_edges]
    exact List.mem_singleton.2 rfl
  obtain ⟨h1, h2, -, h4, h5⟩ := hall c6ExampleEdge hmem
  refine ⟨h1, h2, h4, h5, heqc ?_ c6ExampleEdge hmem⟩
  intro w1 hw1 w2 hw2
  unfold graph_raw_weights at hw1 hw2
  rw [c6_buildGraphData] at hw1 hw2
  simp only [List.map_cons, List.map_nil, List.mem_singleton] at hw1 hw2
  rw [hw1, hw2]

theorem foldl_add_const {α : Type} (c : ℝ) :
    ∀ (l : List α) (a : ℝ), l.foldl (fun w _ => w + c) a = a + l.length * c := by
  intro l
  induction l with
  | nil => intro a; simp
  | cons x t ih =>
    intro a
    rw [List.foldl_cons, ih, List.length_cons]
    push_cast
    ring

theorem rawEdgeWeight_card_mul (now : ℤ) (mode : Str) (e : EdgeData) :
    rawEdgeWeight now mode e = e.nctIds.length *
      trialContribution now mode (weighting_configs mode) e.firstSeen := by
  unfold rawEdgeWeight
  rw [foldl_add_const]
  ring

theorem c2_buildGraphData :
    (buildGraphData c2Trials).2 = [c2EdgeAB, c2EdgeGD] := by
  have hB : parse_collaborators (PyVal.vStr "Beta".data) = ["Beta".data] :=
    parse_collaborators_single "Beta".data "Beta".data (by decide) (by decide)
      (by decide) normalize_Beta (by decide)
  have hD : parse_collaborators (PyVal.vStr "Delta".data) = ["Delta".data] :=
    parse_collaborators_single "Delta".data "Delta".data (by decide) (by decide)
      (by decide) normalize_Delta (by decide)
  have e1 : ∀ st, processTrial st c2t1 =
      processTrialWith "Alpha".data ["Beta".data] st c2t1 :=
    fun st => processTrial_eval st c2t1 normalize_Alpha hB
  have e2 : ∀ st, processTrial st c2t2 =
      processTrialWith "Alpha".data ["Beta".data] st c2t2 :=
    fun st => processTrial_eval st c2t2 normalize_Alpha hB
  have e3 : ∀ st, processTrial st c2t3 =
      processTrialWith "Gamma".data ["Delta".data] st c2t3 :=
    fun st => processTrial_eval st c2t3 normalize_Gamma hD
  unfold buildGraphData c2Trials
  rw [List.foldl_cons, List.foldl_cons, List.foldl_cons, List.foldl_nil,
     e1, e2, e3]
  decide
theorem c2_contribution_old :
    trialContribution c2now "only_recent".data
      (weighting_configs "only_recent".data) (some 18200) = 0 := by
  unfold trialContribution weighting_configs c2now
  rw [if_neg (by decide), if_pos (by decide)]
  dsimp only
  rw [if_pos]
  exact ⟨by decide, by norm_num⟩

theorem c2_contribution_recent :
    trialContribution c2now "only_recent".data
      (weighting_configs "only_recent".data) (some 19970) = 2.134 := by
  unfold trialContribution weighting_configs c2now
  rw [if_neg (by decide), if_pos (by decide)]
  dsimp only
  rw [if_neg (by norm_num)]
  have hmax : max (0 : ℚ) (((20000 - 19970 : ℤ) : ℚ) / 30) = 1 := by norm_num
  rw [if_pos (by norm_num), hmax]
  have hcast : (((1 : ℚ)) : ℝ) = 1 := by norm_num
  rw [hcast, Real.rpow_one]
  norm_num

theorem c2_rawAB :
    rawEdgeWeight c2now "only_recent".data c2EdgeAB = 0 := by
  rw [rawEdgeWeight_card_mul]
  have h1 : c2EdgeAB.firstSeen = some 18200 := rfl
  rw [h1, c2_contribution_old]
  ring

theorem c2_rawGD :
    rawEdgeWeight c2now "only_recent".data c2EdgeGD = 2.134 := by
  rw [rawEdgeWeight_card_mul]
  have h1 : c2EdgeGD.firstSeen = some 19970 := rfl
  rw [h1, c2_contribution_recent]
  norm_num [c2EdgeGD]

theorem round2R_zero : round2R (0 : ℝ) = 0 := by
  unfold round2R
  rw [mul_zero, round_zero]
  norm_num

theorem round2R_ten : round2R (10 : ℝ) = 10 := by
  unfold round2R
  have h : (100 : ℝ) * 10 = ((1000 : ℤ) : ℝ) := by norm_num
  rw [h, round_intCast]
  norm_num

theorem c2_final_weights :
    (build_network_graph c2Trials none "only_recent".data none c2now).edges.map
      (fun e => (e.id, e.weight)) =
      [("Alpha__Beta".data, (0.5 : ℝ)), ("Gamma__Delta".data, (10 : ℝ))] := by
  unfold build_network_graph
  dsimp only
  rw [c2_buildGraphData]
  unfold calculate_edge_weights
  simp only [List.map_cons, List.map_nil, List.foldl_cons, List.foldl_nil]
  rw [c2_rawAB, c2_rawGD]
  have hmm : max (0 : ℝ) 2.134 > min 0 2.134 := by norm_num
  rw [if_pos hmm]
  simp only [List.map_cons, List.map_nil, c2_rawAB, c2_rawGD]
  have hargAB : ((0 : ℝ) - min 0 2.134) / (max 0 2.134 - min 0 2.134) * 10 = 0 := by
    norm_num
  have hargGD : ((2.134 : ℝ) - min 0 2.134) / (max 0 2.134 - min 0 2.134) * 10 = 10 := by
    norm_num
  rw [hargAB, hargGD, round2R_zero, round2R_ten]
  have hw1 : max (0.5 : ℝ) 0 = 0.5 := by norm_num
  have hw2 : max (0.5 : ℝ) 10 = 10 := by norm_num
  rw [hw1, hw2]
  simp +decide [c2EdgeAB, c2EdgeGD, Prod.ext_iff]

/-- **C2** (code_bug).  Under `only_recent`, `_calculate_edge_weights` does
NOT compute each backing trial's contribution from that trial's own start
date: the loop reads `edge['meta']['firstSeen']` for every iteration (the
loop variable `nct_id` is unused), so every backing trial contributes the
same amount, a function of the edge's `firstSeen` alone (first conjunct).
Concretely, in the scenario the spec prescribes — one pair (Alpha, Beta)
backed by a very old trial (start day 18200, 60 months before `now =
20000`) and a recent one (start day 19970, 1 month old), and a second pair
(Gamma, Delta) backed by a single recent trial — the Alpha–Beta edge's raw
weight is 0 (both iterations use the edge's `firstSeen = 18200`, past the
12-month hard cutoff), even though a genuinely recent contribution is the
nonzero `0.97 ^ 1 * (1 + 1.2) = 2.134` (the raw weight Gamma–Delta gets);
after rescaling the full builder returns weight 0.5 for Alpha–Beta (the
floor) and 10 for Gamma–Delta, instead of the equal weights the claim's
per-trial reading would give the two edges. -/
theorem c2_only_recent_ignores_trial_own_dates :
    (∀ (now : ℤ) (mode : Str) (e : EdgeData),
        rawEdgeWeight now mode e = e.nctIds.length *
          trialContribution now mode (weighting_configs mode) e.firstSeen) ∧
    (buildGraphData c2Trials).2 = [c2EdgeAB, c2EdgeGD] ∧
    rawEdgeWeight c2now "only_recent".data c2EdgeAB = 0 ∧
    trialContribution c2now "only_recent".data
      (weighting_configs "only_recent".data) (some 19970) = 2.134 ∧
    (build_network_graph c2Trials none "only_recent".data none c2now).edges.map
      (fun e => (e.id, e.weight)) =
      [("Alpha__Beta".data, (0.5 : ℝ)), ("Gamma__Delta".data, (10 : ℝ))] :=
  ⟨rawEdgeWeight_card_mul, c2_buildGraphData, c2_rawAB, c2_contribution_recent,
   c2_final_weights⟩
